import Mathlib

/-!
Verification development for the mesh-file ingestion subsystem of
`source/grid/grid_in.cc` (the `GridIn` reader family of deal.II).

The C++ parsers consume a whitespace-separated character stream through
`operator>>` plus occasional `getline`/`ignore` calls.  We embed the stream
at token granularity: a token is either a word, an integer literal, or a
real literal, and a `nl` marker records line boundaries (needed for
`ignore(256, newline)` and comment skipping).  Formatted extraction through
a bad stream follows C++ semantics: once the fail bit is set, every further
extraction fails and leaves the value at its zero-initialized default
(C++11 behaviour), so parsing continues until an `AssertThrow(in, ExcIO())`
style check observes the bad stream.  Plain `Assert`/`AssertDimension`
macros of deal.II are disabled in release builds and are embedded as
no-ops; `AssertThrow` is always active and is embedded as an error return.

Numeric widths: `types::material_id`, `types::boundary_id`,
`types::manifold_id` and `unsigned int` are 32-bit unsigned in the
modelled deal.II version; values read from files are reduced mod 2^32.
-/

namespace GridInSpec

/-- Sentinel `numbers::flat_manifold_id` (static cast of -1 to the 32-bit
unsigned `types::manifold_id`). -/
def flat_manifold_id : Nat := 4294967295

/-- Sentinel `numbers::internal_face_boundary_id` (static cast of -1 to the
32-bit unsigned `types::boundary_id`). -/
def internal_face_boundary_id : Nat := 4294967295

/-- Sentinel `numbers::invalid_unsigned_int` (static cast of -1 to
`unsigned int`). -/
def invalid_unsigned_int : Nat := 4294967295

/-- One whitespace-separated token of the input character stream, plus a
line-break marker. -/
inductive Tok where
  | word : String → Tok
  | int : Int → Tok
  | real : ℚ → Tok
  | nl : Tok
deriving DecidableEq, Repr

/-- The state of a C++ input stream at token granularity: the remaining
tokens and the fail bit. -/
structure S where
  toks : List Tok
  bad : Bool
deriving DecidableEq, Repr

/-- Drop leading line-break markers (formatted extraction skips
whitespace). -/
def skipWs : List Tok → List Tok
  | Tok.nl :: r => skipWs r
  | l => l

/-- Textual form of a token as seen by string extraction.  Numeric tokens
render to digit strings, which never compare equal to the alphabetic
keywords the parsers test against; we use fixed representatives. -/
def tokStr : Tok → String
  | Tok.word s => s
  | Tok.int _ => "0"
  | Tok.real _ => "0.0"
  | Tok.nl => ""

/-- Extraction into `std::string` (`in >> keyword`): succeeds on any
non-exhausted stream, clears the target to the empty string on failure. -/
def rdStr (s : S) : String × S :=
  if s.bad then ("", s)
  else
    match skipWs s.toks with
    | [] => ("", { toks := [], bad := true })
    | t :: r => (tokStr t, { toks := r, bad := false })

/-- Extraction into `unsigned int` and friends: succeeds on integer tokens,
reducing mod 2^32 (stream extraction wraps out-of-range values); any other
token sets the fail bit and stores 0. -/
def rdNat (s : S) : Nat × S :=
  if s.bad then (0, s)
  else
    match skipWs s.toks with
    | Tok.int i :: r => (((i % 4294967296).toNat), { toks := r, bad := false })
    | l => (0, { toks := l, bad := true })

/-- Extraction into `int`: succeeds on integer tokens. -/
def rdInt (s : S) : Int × S :=
  if s.bad then (0, s)
  else
    match skipWs s.toks with
    | Tok.int i :: r => (i, { toks := r, bad := false })
    | l => (0, { toks := l, bad := true })

/-- Extraction into `double`: succeeds on integer and real tokens. -/
def rdQ (s : S) : ℚ × S :=
  if s.bad then (0, s)
  else
    match skipWs s.toks with
    | Tok.int i :: r => ((i : ℚ), { toks := r, bad := false })
    | Tok.real q :: r => (q, { toks := r, bad := false })
    | l => (0, { toks := l, bad := true })

/-- Read `k` unsigned integers in sequence. -/
def rdNats : Nat → S → List Nat × S
  | 0, s => ([], s)
  | k + 1, s =>
    let (v, s) := rdNat s
    let (vs, s) := rdNats k s
    (v :: vs, s)

/-- Read `k` doubles in sequence. -/
def rdQs : Nat → S → List ℚ × S
  | 0, s => ([], s)
  | k + 1, s =>
    let (v, s) := rdQ s
    let (vs, s) := rdQs k s
    (v :: vs, s)

/-- Model of `in.ignore(256, newline)`: discard tokens up to and including
the next line break. -/
def ignoreLine (s : S) : S :=
  if s.bad then s
  else
    let rec go : List Tok → List Tok
      | [] => []
      | Tok.nl :: r => r
      | _ :: r => go r
    { toks := go s.toks, bad := false }

/-- Errors thrown by the readers (the active `AssertThrow` conditions). -/
inductive GErr where
  | ioFail
  | msg : String → GErr
  | notImplemented
  | unknownSectionType : Int → GErr
  | invalidVertexIndex
  | unknownIdentifier : String → GErr
  | invalidGMSHInput : String → GErr
  | gmshUnsupportedGeometry : Int → GErr
  | gmshNoCellInformation
  | invalidVertexIndexGmsh
deriving DecidableEq, Repr

/-- `CellData<dim>`: fixed vertex-index array plus `material_id` and
`manifold_id` (the latter defaults to the flat sentinel). -/
structure Cell where
  vertices : List Nat
  material_id : Nat
  manifold_id : Nat
deriving DecidableEq, Repr

/-- Boundary sub-entity (`CellData` used through the boundary member of
`SubCellData`); in the C++ struct `material_id` and `boundary_id` share a
union, we expose the `boundary_id` reading. -/
structure SubEnt where
  vertices : List Nat
  boundary_id : Nat
  manifold_id : Nat
deriving DecidableEq, Repr

/-- The data handed to one `create_triangulation(_compatibility)` call,
plus the 1d per-vertex boundary ids that `assign_1d_boundary_ids` may add
afterwards. -/
structure TriData where
  verts : List (List ℚ)
  cells : List Cell
  blines : List SubEnt
  bquads : List SubEnt
  vertexBids : List (Nat × Nat)
deriving DecidableEq, Repr

/-- The attached triangulation sink, observed as the list of construct
calls it has received. -/
abbrev Sink : Type := List TriData

/-- Association-list update with `std::map` replace semantics. -/
def mapInsert {κ α : Type} [DecidableEq κ] (k : κ) (v : α) :
    List (κ × α) → List (κ × α)
  | [] => [(k, v)]
  | (k2, v2) :: r => if k2 = k then (k, v) :: r else (k2, v2) :: mapInsert k v r

/-- Association-list lookup. -/
def mapFind? {κ α : Type} [DecidableEq κ] (k : κ) : List (κ × α) → Option α
  | [] => none
  | (k2, v2) :: r => if k2 = k then some v2 else mapFind? k r

/-!
Mesh canonicalizer.  `GridTools::delete_unused_vertices` and
`GridTools::delete_duplicated_vertices` live outside this repository
fragment (only their call sites are in `grid_in.cc`); the definitions
below are modelled from the specification and are shared by the
tecplot/assimp claims.
-/

/-- Keep the elements of a list whose paired flag is true. -/
def keepByFlags {V : Type} : List V → List (Bool × Nat) → List V
  | [], _ => []
  | _, [] => []
  | v :: vs, (f, _) :: fs => if f then v :: keepByFlags vs fs else keepByFlags vs fs

/-- Positions (starting at `i`) whose flag is true. -/
def posTrue : List (Bool × Nat) → Nat → List Nat
  | [], _ => []
  | (f, _) :: fs, i => if f then i :: posTrue fs (i + 1) else posTrue fs (i + 1)

/-- Position of a value in a list, if present. -/
def posIn : List Nat → Nat → Option Nat
  | [], _ => none
  | k :: ks, v => if k = v then some 0 else (posIn ks v).map (· + 1)

/-- Dense renumbering: an index present among the kept indices is replaced
by its position there; indices not kept (only out-of-range references, for
which the C++ code has no defined behaviour) are left alone. -/
def renum (kept : List Nat) (v : Nat) : Nat :=
  match posIn kept v with
  | some p => p
  | none => v

/-- Flags of the vertices a reference list keeps alive. -/
def usedFlags (cells : List (List Nat)) : Nat → Nat → List (Bool × Nat)
  | _, 0 => []
  | i, n + 1 => (cells.any (fun c => c.contains i), i) :: usedFlags cells (i + 1) n

/-- Modelled from the spec: `GridTools::delete_unused_vertices` deletes
vertices that no cell or sub-entity references, renumbers the remaining
vertices densely and rewrites every reference.  All reference lists (cells
then sub-entities) are passed in one list of index lists. -/
def delete_unused_vertices {V : Type} (verts : List V) (refs : List (List Nat)) :
    List V × (Nat → Nat) :=
  (keepByFlags verts (usedFlags refs 0 verts.length),
   renum (posTrue (usedFlags refs 0 verts.length) 0))

/-- One scan of the duplicate-merge pass: walk the vertices in order; a
vertex participating in the merge (it is listed among the considered
indices, or the considered list is empty meaning all participate) is
mapped to the first already-kept participating vertex close to it, if any,
and otherwise kept.  Returns, per vertex, a keep flag and the index of the
chosen representative. -/
def mergeAssign {V : Type} (close : V → V → Bool) (particip : Nat → Bool) :
    List V → List (Nat × V) → Nat → List (Bool × Nat)
  | [], _, _ => []
  | p :: rest, pool, i =>
    if particip i then
      match pool.find? (fun jq => close jq.2 p) with
      | some jq => (false, jq.1) :: mergeAssign close particip rest pool (i + 1)
      | none => (true, i) :: mergeAssign close particip rest (pool ++ [(i, p)]) (i + 1)
    else (true, i) :: mergeAssign close particip rest pool (i + 1)

/-- Representative recorded for an index by a merge scan (identity for
out-of-range indices). -/
def repOf (a : List (Bool × Nat)) (v : Nat) : Nat := (a.getD v (true, v)).2

/-- A vertex participates in duplicate merging when it is listed among
the considered vertices; an empty considered list means all vertices
participate. -/
def ddParticip (considered : List Nat) : Nat → Bool :=
  fun i => considered.isEmpty || considered.contains i

/-- The merge scan of one duplicate-removal pass. -/
def ddAssign {V : Type} (close : V → V → Bool) (considered : List Nat)
    (verts : List V) : List (Bool × Nat) :=
  mergeAssign close (ddParticip considered) verts [] 0

/-- Vertices surviving the merge scan. -/
def ddMergedVerts {V : Type} (close : V → V → Bool) (considered : List Nat)
    (verts : List V) : List V :=
  keepByFlags verts (ddAssign close considered verts)

/-- References rewritten to the dense numbering of the surviving merge
representatives. -/
def ddMergedRefs {V : Type} (close : V → V → Bool) (considered : List Nat)
    (verts : List V) (refs : List (List Nat)) : List (List Nat) :=
  refs.map (List.map fun v =>
    renum (posTrue (ddAssign close considered verts) 0)
      (repOf (ddAssign close considered verts) v))

/-- Modelled from the spec: `GridTools::delete_duplicated_vertices`
collapses vertices closer than the tolerance (abstracted as the boolean
`close`) into one representative among the considered vertices (an empty
considered list means all vertices), rewrites all references, and then
also deletes the vertices that became or were unused. -/
def delete_duplicated_vertices {V : Type} (close : V → V → Bool)
    (considered : List Nat) (verts : List V) (refs : List (List Nat)) :
    List V × List (List Nat) :=
  ((delete_unused_vertices (ddMergedVerts close considered verts)
      (ddMergedRefs close considered verts refs)).1,
   (ddMergedRefs close considered verts refs).map
     (List.map ((delete_unused_vertices (ddMergedVerts close considered verts)
        (ddMergedRefs close considered verts refs)).2)))

/-- Vertex count after one merge-and-sweep pass over a mesh given as
vertices plus reference lists. -/
def ddVerts {V : Type} (close : V → V → Bool) (verts : List V)
    (refs : List (List Nat)) : List V :=
  (delete_duplicated_vertices close [] verts refs).1

/-- Reference lists after one merge-and-sweep pass. -/
def ddRefs {V : Type} (close : V → V → Bool) (verts : List V)
    (refs : List (List Nat)) : List (List Nat) :=
  (delete_duplicated_vertices close [] verts refs).2

/-- The duplicate-removal loop of `read_assimp`: keep calling
`delete_duplicated_vertices` until the number of vertices no longer
changes (the C++ `while (n_verts != vertices.size())` loop, which is
skipped entirely when the vertex list starts out empty). -/
def mergeLoopGo {V : Type} (close : V → V → Bool) :
    Nat → List V × List (List Nat) → List V × List (List Nat)
  | 0, m => m
  | fuel + 1, (verts, refs) =>
    let verts2 := ddVerts close verts refs
    let refs2 := ddRefs close verts refs
    if verts2.length = verts.length then (verts2, refs2)
    else mergeLoopGo close fuel (verts2, refs2)

/-- Entry point of the duplicate-removal loop (mirrors `read_assimp`
lines 3108-3121). -/
def mergeLoop {V : Type} (close : V → V → Bool) (verts : List V)
    (refs : List (List Nat)) : List V × List (List Nat) :=
  if verts.isEmpty then (verts, refs)
  else mergeLoopGo close verts.length (verts, refs)

/-!
VTK legacy ASCII reader, `GridIn::read_vtk` (grid_in.cc lines 112-493).
The four header lines are consumed by `getline` and are modelled as a list
of raw line strings; the rest of the file is token stream.
-/

/-- Cast of a `double` id value to a 32-bit unsigned id type
(`static_cast<types::material_id>(id)` and friends). -/
def castId (q : ℚ) : Nat := ((q.floor % 4294967296).toNat)

/-- Truncate the three VTK point components to the target spatial
dimension. -/
def truncPt (spacedim : Nat) (xs : List ℚ) : List ℚ := xs.take spacedim

/-- Read the `POINTS` triples (VTK always stores three components per
vertex). -/
def vtk_points (spacedim : Nat) : Nat → S → List (List ℚ) × S
  | 0, s => ([], s)
  | n + 1, s =>
    let (xs, s) := rdQs 3 s
    let (vs, s) := vtk_points spacedim n s
    (truncPt spacedim xs :: vs, s)

/-- The 3d branch of the VTK `CELLS` loop (lines 188-243): per entity a
leading vertex count selects hexahedron cell (8), boundary quad (4) or
boundary line (2); cells must come before any quad or line, and quads
before any line, on pain of `ExcNotImplemented`. -/
def vtk_cells_3d :
    Nat → S → List Cell → List SubEnt → List SubEnt →
    Except GErr (List Cell × List SubEnt × List SubEnt × S)
  | 0, s, cells, quads, lines => Except.ok (cells, quads, lines, s)
  | count + 1, s, cells, quads, lines =>
    let (ty, s) := rdNat s
    if ty = 8 then
      if quads.length = 0 ∧ lines.length = 0 then
        let (vs, s) := rdNats 8 s
        vtk_cells_3d count s
          (cells ++ [{ vertices := vs, material_id := 0,
                       manifold_id := flat_manifold_id }]) quads lines
      else Except.error GErr.notImplemented
    else if ty = 4 then
      if lines.length = 0 then
        let (vs, s) := rdNats 4 s
        vtk_cells_3d count s cells
          (quads ++ [{ vertices := vs, boundary_id := 0,
                       manifold_id := flat_manifold_id }]) lines
      else Except.error GErr.notImplemented
    else if ty = 2 then
      let (vs, s) := rdNats 2 s
      vtk_cells_3d count s cells quads
        (lines ++ [{ vertices := vs, boundary_id := 0,
                     manifold_id := flat_manifold_id }])
    else
      Except.error (GErr.msg "While reading VTK file, unknown file type encountered")

/-- The 2d branch of the VTK `CELLS` loop (lines 245-288): 4 is a quad
cell (which must precede every boundary line), 2 a boundary line. -/
def vtk_cells_2d :
    Nat → S → List Cell → List SubEnt →
    Except GErr (List Cell × List SubEnt × S)
  | 0, s, cells, lines => Except.ok (cells, lines, s)
  | count + 1, s, cells, lines =>
    let (ty, s) := rdNat s
    if ty = 4 then
      if lines.length = 0 then
        let (vs, s) := rdNats 4 s
        vtk_cells_2d count s
          (cells ++ [{ vertices := vs, material_id := 0,
                       manifold_id := flat_manifold_id }]) lines
      else Except.error GErr.notImplemented
    else if ty = 2 then
      let (vs, s) := rdNats 2 s
      vtk_cells_2d count s cells
        (lines ++ [{ vertices := vs, boundary_id := 0,
                     manifold_id := flat_manifold_id }])
    else
      Except.error (GErr.msg "While reading VTK file, unknown cell type encountered")

/-- The 1d branch of the VTK `CELLS` loop (lines 289-307): every entity
must be a line cell. -/
def vtk_cells_1d :
    Nat → S → List Cell →
    Except GErr (List Cell × S)
  | 0, s, cells => Except.ok (cells, s)
  | count + 1, s, cells =>
    let (ty, s) := rdNat s
    if ty = 2 then
      let (vs, s) := rdNats 2 s
      vtk_cells_1d count s
        (cells ++ [{ vertices := vs, material_id := 0,
                     manifold_id := flat_manifold_id }])
    else
      Except.error (GErr.msg "While reading VTK file, unknown cell type encountered")

/-- Discard `n` integers (the `CELL_TYPES` values, read and ignored). -/
def vtk_skip_ints : Nat → S → S
  | 0, s => s
  | n + 1, s =>
    let (_, s) := rdInt s
    vtk_skip_ints n s

/-- Assign one id read from the stream to each cell in order (the
`SCALARS` block for cells); `isMat` selects `MaterialID` versus
`ManifoldID`. -/
def vtk_assign_cells (isMat : Bool) : List Cell → S → List Cell × S
  | [], s => ([], s)
  | c :: cs, s =>
    let (q, s) := rdQ s
    let c2 := if isMat then { c with material_id := castId q }
              else { c with manifold_id := castId q }
    let (cs2, s) := vtk_assign_cells isMat cs s
    (c2 :: cs2, s)

/-- Assign one id per sub-entity in order; a `MaterialID` value lands in
the union member read as `boundary_id`. -/
def vtk_assign_subs (isMat : Bool) : List SubEnt → S → List SubEnt × S
  | [], s => ([], s)
  | e :: es, s =>
    let (q, s) := rdQ s
    let e2 := if isMat then { e with boundary_id := castId q }
              else { e with manifold_id := castId q }
    let (es2, s) := vtk_assign_subs isMat es s
    (e2 :: es2, s)

/-- One recognized `SCALARS MaterialID|ManifoldID` block: skip to the end
of the line, demand `LOOKUP_TABLE default`, then read ids for all cells,
then all quads, then all lines (3d) or all lines (2d). -/
def vtk_scalars_block (dim : Nat) (isMat : Bool)
    (cells : List Cell) (quads lines : List SubEnt) (s : S) :
    Except GErr (List Cell × List SubEnt × List SubEnt × S) :=
  let s := ignoreLine s
  let (kw, s) := rdStr s
  if kw ≠ "LOOKUP_TABLE" then
    Except.error (GErr.msg "While reading VTK file, missing keyword LOOKUP_TABLE")
  else
    let (kw, s) := rdStr s
    if kw ≠ "default" then
      Except.error (GErr.msg "While reading VTK file, missing keyword default")
    else
      let p1 := vtk_assign_cells isMat cells s
      if dim = 3 then
        let p2 := vtk_assign_subs isMat quads p1.2
        let p3 := vtk_assign_subs isMat lines p2.2
        Except.ok (p1.1, p2.1, p3.1, p3.2)
      else if dim = 2 then
        let p3 := vtk_assign_subs isMat lines p1.2
        Except.ok (p1.1, quads, p3.1, p3.2)
      else Except.ok (p1.1, quads, lines, p1.2)

/-- The inner scan of the `CELL_DATA` handler: keep extracting keywords
until the stream fails; each `SCALARS` keyword whose data-set name is
recognized triggers an id-assignment block, unknown names are skipped. -/
def vtk_scan_scalars (dim : Nat) :
    Nat → List Cell → List SubEnt → List SubEnt → S →
    Except GErr (List Cell × List SubEnt × List SubEnt × S)
  | 0, cells, quads, lines, s => Except.ok (cells, quads, lines, s)
  | fuel + 1, cells, quads, lines, s =>
    let (kw, s2) := rdStr s
    if s2.bad then Except.ok (cells, quads, lines, s2)
    else if kw = "SCALARS" then
      let (name, s3) := rdStr s2
      if name = "MaterialID" then
        match vtk_scalars_block dim true cells quads lines s3 with
        | Except.error e => Except.error e
        | Except.ok (cells, quads, lines, s4) =>
          vtk_scan_scalars dim fuel cells quads lines s4
      else if name = "ManifoldID" then
        match vtk_scalars_block dim false cells quads lines s3 with
        | Except.error e => Except.error e
        | Except.ok (cells, quads, lines, s4) =>
          vtk_scan_scalars dim fuel cells quads lines s4
      else vtk_scan_scalars dim fuel cells quads lines s3
    else vtk_scan_scalars dim fuel cells quads lines s2

/-- The outer keyword scan after `CELL_TYPES` (lines 344-474): everything
is ignored until a `CELL_DATA` keyword, whose declared count must equal
the number of geometric objects; its scalar data sets are then processed
by two passes of the inner scan. -/
def vtk_scan_celldata (dim declared : Nat) :
    Nat → List Cell → List SubEnt → List SubEnt → S →
    Except GErr (List Cell × List SubEnt × List SubEnt × S)
  | 0, cells, quads, lines, s => Except.ok (cells, quads, lines, s)
  | fuel + 1, cells, quads, lines, s =>
    let (kw, s2) := rdStr s
    if s2.bad then Except.ok (cells, quads, lines, s2)
    else if kw = "CELL_DATA" then
      let (nIds, s3) := rdNat s2
      if nIds ≠ declared then
        Except.error (GErr.msg "CELL_DATA count does not equal cells plus boundary objects")
      else
        match vtk_scan_scalars dim (s3.toks.length + 1) cells quads lines s3 with
        | Except.error e => Except.error e
        | Except.ok (cells, quads, lines, s4) =>
          match vtk_scan_scalars dim (s4.toks.length + 1) cells quads lines s4 with
          | Except.error e => Except.error e
          | Except.ok (cells, quads, lines, s5) =>
            vtk_scan_celldata dim declared fuel cells quads lines s5
    else vtk_scan_celldata dim declared fuel cells quads lines s2

/-- Parsed VTK data just before canonicalization and construction; the
header-declared entity count is carried along for specification
purposes. -/
structure VtkResult where
  verts : List (List ℚ)
  cells : List Cell
  blines : List SubEnt
  bquads : List SubEnt
  declared : Nat
deriving DecidableEq, Repr

/-- Apply `delete_unused_vertices` to parsed data (the canonicalization
step shared by the readers; the subsequent `GridReordering` calls permute
vertex order inside cells and do not touch the vertex container or list
lengths, and are not part of this repository fragment). -/
def cleanupTri (verts : List (List ℚ)) (cells : List Cell)
    (blines bquads : List SubEnt) : TriData :=
  let refs := cells.map Cell.vertices ++ blines.map SubEnt.vertices ++
      bquads.map SubEnt.vertices
  let (verts2, rw) := delete_unused_vertices verts refs
  { verts := verts2
    cells := cells.map (fun c => { c with vertices := c.vertices.map rw })
    blines := blines.map (fun e => { e with vertices := e.vertices.map rw })
    bquads := bquads.map (fun e => { e with vertices := e.vertices.map rw })
    vertexBids := [] }

/-- The tail of the VTK parse after the `CELLS` loop: the `CELL_TYPES`
section (whose count must repeat the `CELLS` count) followed by the
optional `CELL_DATA` scan (lines 311-474). -/
def vtk_after_cells (dim declared : Nat) (verts : List (List ℚ))
    (cells : List Cell) (quads lines : List SubEnt) (s : S) :
    Except GErr VtkResult :=
  let (kw, s) := rdStr s
  if kw ≠ "CELL_TYPES" then
    Except.error (GErr.msg "While reading VTK file, missing CELL_TYPES section")
  else
    let (n2, s) := rdNat s
    if n2 ≠ declared then
      Except.error (GErr.msg "CELL_TYPES count does not equal cells plus boundary objects")
    else
      let s := vtk_skip_ints n2 s
      match vtk_scan_celldata dim declared (s.toks.length + 1)
          cells quads lines s with
      | Except.error e => Except.error e
      | Except.ok (cells, quads, lines, _) =>
        Except.ok { verts := verts, cells := cells, blines := lines,
                    bquads := quads, declared := declared }

/-- The pure parsing part of `GridIn::read_vtk`: header lines, `POINTS`,
`CELLS`, `CELL_TYPES`, optional `CELL_DATA`. -/
def read_vtk_core (dim spacedim : Nat) (header : List String) (s : S) :
    Except GErr VtkResult :=
  if (header.getD 0 "") ≠ "# vtk DataFile Version 3.0" then
    Except.error (GErr.msg "While reading VTK file, failed to find a header line")
  else if (header.getD 2 "") ≠ "ASCII" then
    Except.error (GErr.msg "While reading VTK file, failed to find a header line")
  else if (header.getD 3 "") ≠ "DATASET UNSTRUCTURED_GRID" then
    Except.error (GErr.msg "While reading VTK file, failed to find a header line")
  else
    let (kw, s) := rdStr s
    if kw ≠ "POINTS" then
      Except.error (GErr.msg "While reading VTK file, failed to find POINTS section")
    else
      let (nVerts, s) := rdNat s
      let (_, s) := rdStr s
      let (verts, s) := vtk_points spacedim nVerts s
      let (kw, s) := rdStr s
      if kw ≠ "CELLS" then
        Except.error (GErr.msg "While reading VTK file, failed to find CELLS section")
      else
        let (declared, s) := rdNat s
        let (_, s) := rdNat s
        if dim = 3 then
          match vtk_cells_3d declared s [] [] [] with
          | Except.error e => Except.error e
          | Except.ok (cells, quads, lines, s) =>
            vtk_after_cells dim declared verts cells quads lines s
        else if dim = 2 then
          match vtk_cells_2d declared s [] [] with
          | Except.error e => Except.error e
          | Except.ok (cells, lines, s) =>
            vtk_after_cells dim declared verts cells [] lines s
        else if dim = 1 then
          match vtk_cells_1d declared s [] with
          | Except.error e => Except.error e
          | Except.ok (cells, s) =>
            vtk_after_cells dim declared verts cells [] [] s
        else
          Except.error (GErr.msg "While reading VTK file, failed to find CELLS section")

/-- `GridIn::read_vtk` including its effect on the attached sink: the
single `create_triangulation_compatibility` call happens after the whole
file has been parsed and canonicalized. -/
def read_vtk (dim spacedim : Nat) (header : List String) (s : S) (sink : Sink) :
    Except GErr Unit × Sink :=
  match read_vtk_core dim spacedim header s with
  | Except.error e => (Except.error e, sink)
  | Except.ok r =>
    (Except.ok (), sink ++ [cleanupTri r.verts r.cells r.blines r.bquads])

/-!
AVS UCD reader, `GridIn::read_ucd` (grid_in.cc lines 747-987).
-/

/-- Drop tokens up to and including the next line break. -/
def dropThroughNl : List Tok → List Tok
  | [] => []
  | Tok.nl :: r => r
  | _ :: r => dropThroughNl r

/-- `GridIn::skip_comment_lines` at token granularity: drop leading blank
lines and every line whose first token starts with the comment
character. -/
def skipComments : Nat → List Tok → List Tok
  | 0, l => l
  | fuel + 1, l =>
    match skipWs l with
    | Tok.word w :: r =>
      if w.startsWith "#" then skipComments fuel (dropThroughNl r)
      else Tok.word w :: r
    | l2 => l2

/-- Stream-level wrapper for comment skipping. -/
def skip_comment_lines (s : S) : S :=
  if s.bad then s else { toks := skipComments s.toks.length s.toks, bad := false }

/-- Translate file-native vertex numbers to dense indices; a missing
number is an `ExcInvalidVertexIndex` hard failure (the cell and boundary
line cases of read_ucd). -/
def ucd_xlat_strict (vmap : List (Int × Nat)) : List Nat → Except GErr (List Nat)
  | [] => Except.ok []
  | v :: vs =>
    match mapFind? (Int.ofNat v) vmap with
    | some d =>
      match ucd_xlat_strict vmap vs with
      | Except.ok ds => Except.ok (d :: ds)
      | Except.error e => Except.error e
    | none => Except.error GErr.invalidVertexIndex

/-- Translate vertex numbers for a boundary quad: the missing-vertex check
there is a disabled debug `Assert`, so an unknown number silently becomes
`invalid_unsigned_int` (grid_in.cc lines 956-966). -/
def ucd_xlat_quad (vmap : List (Int × Nat)) : List Nat → List Nat
  | [] => []
  | v :: vs =>
    (match mapFind? (Int.ofNat v) vmap with
     | some d => d
     | none => invalid_unsigned_int) :: ucd_xlat_quad vmap vs

/-- Cell produced by read_ucd: the tag read from the file always becomes
`material_id`, and additionally becomes `manifold_id` when
`apply_all_indicators_to_manifolds` is set (lines 837-841). -/
def mkUcdCell (flag : Bool) (tag : Nat) (vs : List Nat) : Cell :=
  { vertices := vs
    material_id := tag
    manifold_id := if flag then tag else flat_manifold_id }

/-- Boundary line produced by read_ucd (lines 885-898): with the
`apply_all_indicators_to_manifolds` flag set, `boundary_id` is forced to
the internal-face sentinel and the tag becomes `manifold_id`; without it,
the tag becomes `boundary_id` and `manifold_id` is the flat sentinel. -/
def mkUcdBLine (flag : Bool) (tag : Nat) (vs : List Nat) : SubEnt :=
  if flag then
    { vertices := vs, boundary_id := internal_face_boundary_id, manifold_id := tag }
  else
    { vertices := vs, boundary_id := tag, manifold_id := flat_manifold_id }

/-- Boundary quad produced by read_ucd (lines 939-952), same tag logic as
for boundary lines. -/
def mkUcdBQuad (flag : Bool) (tag : Nat) (vs : List Nat) : SubEnt :=
  if flag then
    { vertices := vs, boundary_id := internal_face_boundary_id, manifold_id := tag }
  else
    { vertices := vs, boundary_id := tag, manifold_id := flat_manifold_id }

/-- The UCD vertex loop (lines 775-791): native number, three coordinates,
id-map entry; `AssertThrow(in, ExcIO())` guards every iteration. -/
def ucd_vertex_loop (spacedim : Nat) :
    Nat → Nat → List (List ℚ) → List (Int × Nat) → S →
    Except GErr (List (List ℚ) × List (Int × Nat) × S)
  | 0, _, acc, vmap, s => Except.ok (acc, vmap, s)
  | n + 1, idx, acc, vmap, s =>
    if s.bad then Except.error GErr.ioFail
    else
      let (no, s) := rdInt s
      let (xs, s) := rdQs 3 s
      ucd_vertex_loop spacedim n (idx + 1) (acc ++ [truncPt spacedim xs])
        (mapInsert no idx vmap) s

/-- The UCD cell loop (lines 797-971): ignored cell number, tag, type
keyword, then the dimension-dependent entity branches. -/
def ucd_cell_loop (dim : Nat) (flag : Bool) (vmap : List (Int × Nat)) :
    Nat → S → List Cell → List SubEnt → List SubEnt →
    Except GErr (List Cell × List SubEnt × List SubEnt × S)
  | 0, s, cells, bl, bq => Except.ok (cells, bl, bq, s)
  | n + 1, s, cells, bl, bq =>
    if s.bad then Except.error GErr.ioFail
    else
      let (_, s) := rdInt s
      let (tag, s) := rdNat s
      let (ct, s) := rdStr s
      if (ct = "line" ∧ dim = 1) ∨ (ct = "quad" ∧ dim = 2) ∨
          (ct = "hex" ∧ dim = 3) then
        let (vs, s) := rdNats (2 ^ dim) s
        match ucd_xlat_strict vmap vs with
        | Except.error e => Except.error e
        | Except.ok ds =>
          ucd_cell_loop dim flag vmap n s (cells ++ [mkUcdCell flag tag ds]) bl bq
      else if ct = "line" ∧ (dim = 2 ∨ dim = 3) then
        let (vs, s) := rdNats 2 s
        match ucd_xlat_strict vmap vs with
        | Except.error e => Except.error e
        | Except.ok ds =>
          ucd_cell_loop dim flag vmap n s cells (bl ++ [mkUcdBLine flag tag ds]) bq
      else if ct = "quad" ∧ dim = 3 then
        let (vs, s) := rdNats 4 s
        let ds := ucd_xlat_quad vmap vs
        ucd_cell_loop dim flag vmap n s cells bl (bq ++ [mkUcdBQuad flag tag ds])
      else Except.error (GErr.unknownIdentifier ct)

/-- Parsed UCD data before canonicalization, with the header-declared cell
count carried along. -/
structure UcdResult where
  verts : List (List ℚ)
  cells : List Cell
  blines : List SubEnt
  bquads : List SubEnt
  declaredCells : Nat
deriving DecidableEq, Repr

/-- The pure parsing part of `GridIn::read_ucd`. -/
def read_ucd_core (dim spacedim : Nat) (flag : Bool) (s : S) :
    Except GErr UcdResult :=
  if s.bad then Except.error GErr.ioFail
  else
    let s := skip_comment_lines s
    let (nVerts, s) := rdNat s
    let (nCells, s) := rdNat s
    let (_, s) := rdInt s
    let (_, s) := rdInt s
    let (_, s) := rdInt s
    if s.bad then Except.error GErr.ioFail
    else
      match ucd_vertex_loop spacedim nVerts 0 [] [] s with
      | Except.error e => Except.error e
      | Except.ok (verts, vmap, s) =>
        match ucd_cell_loop dim flag vmap nCells s [] [] [] with
        | Except.error e => Except.error e
        | Except.ok (cells, bl, bq, s) =>
          if s.bad then Except.error GErr.ioFail
          else Except.ok { verts := verts, cells := cells, blines := bl,
                           bquads := bq, declaredCells := nCells }

/-- `GridIn::read_ucd` including its effect on the sink: the single
construct call follows the complete parse and canonicalization. -/
def read_ucd (dim spacedim : Nat) (flag : Bool) (s : S) (sink : Sink) :
    Except GErr Unit × Sink :=
  match read_ucd_core dim spacedim flag s with
  | Except.error e => (Except.error e, sink)
  | Except.ok r =>
    (Except.ok (), sink ++ [cleanupTri r.verts r.cells r.blines r.bquads])

/-!
Gmsh MSH reader, `GridIn::read_msh` (grid_in.cc lines 1403-2034).
-/

/-- The `do in >> line; while (line != marker)` skip loops for ignored
blocks.  On a stream that goes bad the C++ loop never terminates; fuel
exhaustion stands in for that divergence (no construct call happens
either way). -/
def msh_skip_until (marker : String) : Nat → S → Except GErr S
  | 0, _ => Except.error GErr.ioFail
  | fuel + 1, s =>
    let (l, s2) := rdStr s
    if s2.bad then Except.error GErr.ioFail
    else if l = marker then Except.ok s2
    else msh_skip_until marker fuel s2

/-- Read the trailing physical tag of an `$Entities` record: at most one
tag is supported, and with no tag the default is 0. -/
def msh_phys_tag : Nat → Int → S → Int × S
  | 0, acc, s => (acc, s)
  | n + 1, _, s =>
    let (t, s) := rdInt s
    msh_phys_tag n t s

/-- Consume a list of bounding-entity tags (the points of a curve, the
curves of a surface, the surfaces of a volume). -/
def msh_skip_tags : Nat → S → S
  | 0, s => s
  | n + 1, s =>
    let (_, s) := rdInt s
    msh_skip_tags n s

/-- Parse the point records of an `$Entities` block into the
dimension-0 tag map (lines 1468-1498); version 4.1 stores only a point,
4.0 a bounding box. -/
def msh_entity_points (fmt : Nat) :
    Nat → List (Int × Int) → S → Except GErr (List (Int × Int) × S)
  | 0, m, s => Except.ok (m, s)
  | n + 1, m, s =>
    let (tag, s) := rdInt s
    let s := if fmt > 40 then (rdQs 3 s).2 else (rdQs 6 s).2
    let (nPhys, s) := rdNat s
    if nPhys ≥ 2 then Except.error (GErr.msg "More than one tag is not supported!")
    else
      let (phys, s) := msh_phys_tag nPhys 0 s
      msh_entity_points fmt n (mapInsert tag phys m) s

/-- Parse the records of a positive-dimensional `$Entities` block
(curves, surfaces or volumes, lines 1499-1574): tag, bounding box,
physical tag, then the list of bounding entities of one dimension
lower. -/
def msh_entity_dimd :
    Nat → List (Int × Int) → S → Except GErr (List (Int × Int) × S)
  | 0, m, s => Except.ok (m, s)
  | n + 1, m, s =>
    let (tag, s) := rdInt s
    let s := (rdQs 6 s).2
    let (nPhys, s) := rdNat s
    if nPhys ≥ 2 then Except.error (GErr.msg "More than one tag is not supported!")
    else
      let (phys, s) := msh_phys_tag nPhys 0 s
      let (nBound, s) := rdNat s
      let s := msh_skip_tags nBound s
      msh_entity_dimd n (mapInsert tag phys m) s

/-- Parse a whole `$Entities` block into the four tag maps. -/
def msh_entities (fmt : Nat) (s : S) :
    Except GErr (List (List (Int × Int)) × S) :=
  let (nPoints, s) := rdNat s
  let (nCurves, s) := rdNat s
  let (nSurfaces, s) := rdNat s
  let (nVolumes, s) := rdNat s
  match msh_entity_points fmt nPoints [] s with
  | Except.error e => Except.error e
  | Except.ok (m0, s) =>
    match msh_entity_dimd nCurves [] s with
    | Except.error e => Except.error e
    | Except.ok (m1, s) =>
      match msh_entity_dimd nSurfaces [] s with
      | Except.error e => Except.error e
      | Except.ok (m2, s) =>
        match msh_entity_dimd nVolumes [] s with
        | Except.error e => Except.error e
        | Except.ok (m3, s) =>
          let (l, s) := rdStr s
          if l ≠ "$EndEntities" then Except.error (GErr.invalidGMSHInput l)
          else Except.ok ([m0, m1, m2, m3], s)

/-- Prefetch the node tags of a version-4.1 node block. -/
def msh_prefetch : Nat → S → List Int × S
  | 0, s => ([], s)
  | n + 1, s =>
    let (v, s) := rdInt s
    let (vs, s) := msh_prefetch n s
    (v :: vs, s)

/-- Read the nodes of one node block (lines 1648-1677): the node tag
comes from the prefetched list for version 4.1 and from the stream
otherwise; parametric coordinates are read and dropped. -/
def msh_nodes_in_block (fmt spacedim : Nat) (parametric : Bool) :
    Nat → List Int → Nat → List (List ℚ) → List (Int × Nat) → S →
    List (List ℚ) × List (Int × Nat) × Nat × S
  | 0, _, idx, verts, vmap, s => (verts, vmap, idx, s)
  | n + 1, pre, idx, verts, vmap, s =>
    let (no, pre, s) :=
      if fmt > 40 then (pre.headD 0, pre.tail, s)
      else
        let (no, s) := rdInt s
        (no, pre, s)
    let (xs, s) := rdQs 3 s
    let s := if parametric then (rdQs 2 s).2 else s
    msh_nodes_in_block fmt spacedim parametric n pre (idx + 1)
      (verts ++ [truncPt spacedim xs]) (mapInsert no idx vmap) s

/-- Loop over the node entity blocks (lines 1619-1678). -/
def msh_node_blocks (fmt spacedim nVerts : Nat) :
    Nat → Nat → List (List ℚ) → List (Int × Nat) → S →
    List (List ℚ) × List (Int × Nat) × S
  | 0, _, verts, vmap, s => (verts, vmap, s)
  | nb + 1, idx, verts, vmap, s =>
    let (numNodes, parametric, s) :=
      if fmt < 40 then (nVerts, false, s)
      else
        let (_, s) := rdInt s
        let (_, s) := rdInt s
        let (par, s) := rdInt s
        let (num, s) := rdNat s
        (num, par ≠ 0, s)
    let (pre, s) := if fmt > 40 then msh_prefetch numNodes s else ([], s)
    let (verts, vmap, idx, s) :=
      msh_nodes_in_block fmt spacedim parametric numNodes pre idx verts vmap s
    msh_node_blocks fmt spacedim nVerts nb idx verts vmap s

/-- Translate cell vertex numbers; an unknown number is the hard failure
`ExcInvalidVertexIndexGmsh` (lines 1866-1880). -/
def msh_xlat_cell (vmap : List (Int × Nat)) : List Nat → Except GErr (List Nat)
  | [] => Except.ok []
  | v :: vs =>
    match mapFind? (Int.ofNat v) vmap with
    | some d =>
      match msh_xlat_cell vmap vs with
      | Except.ok ds => Except.ok (d :: ds)
      | Except.error e => Except.error e
    | none => Except.error GErr.invalidVertexIndexGmsh

/-- Running element-section state: cells, boundary objects, the 1d
per-vertex boundary ids, and a count of the point (type 15) elements
seen. -/
structure MshState where
  cells : List Cell
  blines : List SubEnt
  bquads : List SubEnt
  bids1d : List (Nat × Nat)
  npoints : Nat
deriving DecidableEq, Repr

/-- Consume the node list of a version-1 point element (each read
overwrites `node_index`, starting from 0). -/
def msh_point_nodes : Nat → Nat → S → Nat × S
  | 0, acc, s => (acc, s)
  | n + 1, _, s =>
    let (v, s) := rdNat s
    msh_point_nodes n v s

/-- Process one element record (lines 1746-2001). -/
def msh_read_element (fmt dim : Nat) (vmap : List (Int × Nat))
    (blockMat : Nat) (blockType : Int) (st : MshState) (s : S) :
    Except GErr (MshState × S) :=
  let (cellType, s) :=
    if fmt < 40 then
      let (_, s) := rdNat s
      let (ct, s) := rdInt s
      (ct, s)
    else (blockType, s)
  let (matId, nodNum, s) :=
    if fmt < 20 then
      let (m, s) := rdNat s
      let (_, s) := rdNat s
      let (nn, s) := rdNat s
      (m, nn, s)
    else if fmt < 40 then
      let (nTags, s) := rdNat s
      let (m, s) := if nTags > 0 then rdNat s else (0, s)
      let s := (rdNats (nTags - 1) s).2
      (m, 2 ^ dim, s)
    else
      let (_, s) := rdInt s
      (blockMat, 2 ^ dim, s)
  if (cellType = 1 ∧ dim = 1) ∨ (cellType = 3 ∧ dim = 2) ∨
      (cellType = 5 ∧ dim = 3) then
    if nodNum ≠ 2 ^ dim then
      Except.error (GErr.msg "Number of nodes does not coincide with the number required for this object")
    else
      let (vs, s) := rdNats (2 ^ dim) s
      match msh_xlat_cell vmap vs with
      | Except.error e => Except.error e
      | Except.ok ds =>
        Except.ok ({ st with cells := st.cells ++
          [{ vertices := ds, material_id := matId,
             manifold_id := flat_manifold_id }] }, s)
  else if cellType = 1 ∧ (dim = 2 ∨ dim = 3) then
    let (vs, s) := rdNats 2 s
    match ucd_xlat_strict vmap vs with
    | Except.error e => Except.error e
    | Except.ok ds =>
      Except.ok ({ st with blines := st.blines ++
        [{ vertices := ds, boundary_id := matId,
           manifold_id := flat_manifold_id }] }, s)
  else if cellType = 3 ∧ dim = 3 then
    let (vs, s) := rdNats 4 s
    let ds := ucd_xlat_quad vmap vs
    Except.ok ({ st with bquads := st.bquads ++
      [{ vertices := ds, boundary_id := matId,
         manifold_id := flat_manifold_id }] }, s)
  else if cellType = 15 then
    let (nodeIndex, s) :=
      if fmt < 20 then msh_point_nodes nodNum 0 s
      else rdNat s
    let st2 :=
      if dim = 1 then
        { st with
          bids1d := mapInsert ((mapFind? (Int.ofNat nodeIndex) vmap).getD 0)
            matId st.bids1d
          npoints := st.npoints + 1 }
      else { st with npoints := st.npoints + 1 }
    Except.ok (st2, s)
  else if cellType = 2 then
    Except.error (GErr.msg "Found triangles while reading a file in gmsh format. deal.II does not support triangles")
  else if cellType = 11 then
    Except.error (GErr.msg "Found tetrahedra while reading a file in gmsh format. deal.II does not support tetrahedra")
  else Except.error (GErr.gmshUnsupportedGeometry cellType)

/-- The element loop inside one entity block (lines 1746-2001), guarded
per iteration by `AssertThrow(in, ExcIO())`. -/
def msh_elements_in_block (fmt dim : Nat) (vmap : List (Int × Nat))
    (blockMat : Nat) (blockType : Int) :
    Nat → MshState → S → Except GErr (MshState × S)
  | 0, st, s => Except.ok (st, s)
  | n + 1, st, s =>
    if s.bad then Except.error GErr.ioFail
    else
      match msh_read_element fmt dim vmap blockMat blockType st s with
      | Except.error e => Except.error e
      | Except.ok (st, s) => msh_elements_in_block fmt dim vmap blockMat blockType n st s

/-- Loop over the element entity blocks (lines 1720-2002), tracking the
running global element counter `global_cell`. -/
def msh_element_blocks (fmt dim : Nat) (vmap : List (Int × Nat))
    (tagMaps : List (List (Int × Int))) (declared : Nat) :
    Nat → MshState → Nat → S → Except GErr (MshState × Nat × S)
  | 0, st, gc, s => Except.ok (st, gc, s)
  | nb + 1, st, gc, s =>
    let (blockMat, blockType, numElements, s) :=
      if fmt < 40 then (0, 0, declared, s)
      else if fmt = 40 then
        let (tagEntity, s) := rdInt s
        let (dimEntity, s) := rdInt s
        let (ct, s) := rdInt s
        let (num, s) := rdNat s
        let m := (mapFind? tagEntity ((tagMaps.getD dimEntity.toNat []))).getD 0
        (((m % 4294967296).toNat), ct, num, s)
      else
        let (dimEntity, s) := rdInt s
        let (tagEntity, s) := rdInt s
        let (ct, s) := rdInt s
        let (num, s) := rdNat s
        let m := (mapFind? tagEntity ((tagMaps.getD dimEntity.toNat []))).getD 0
        (((m % 4294967296).toNat), ct, num, s)
    match msh_elements_in_block fmt dim vmap blockMat blockType numElements st s with
    | Except.error e => Except.error e
    | Except.ok (st, s) =>
      msh_element_blocks fmt dim vmap tagMaps declared nb st (gc + numElements) s

/-- Everything `read_msh` does before the "did we read any cells" check:
format detection, optional blocks, nodes, elements, end markers and the
final stream-state check. -/
structure MshPhase1 where
  fmt : Nat
  verts : List (List ℚ)
  vmap : List (Int × Nat)
  st : MshState
  declared : Nat
  globalCell : Nat
deriving DecidableEq, Repr

/-- Parse the header of a version 2+ file through the `$Nodes` keyword,
returning the detected sub-format and the tag maps. -/
def msh_header2 (s : S) :
    Except GErr (Nat × List (List (Int × Int)) × S) :=
  let (ver, s) := rdQ s
  let (_, s) := rdNat s
  let (_, s) := rdNat s
  let fmt := ((ver * 10).floor).toNat
  let (l, s) := rdStr s
  if l ≠ "$EndMeshFormat" then Except.error (GErr.invalidGMSHInput l)
  else
    let (l, s) := rdStr s
    let step1 : Except GErr (String × S) :=
      if l = "$PhysicalNames" then
        match msh_skip_until "$EndPhysicalNames" (s.toks.length + 1) s with
        | Except.error e => Except.error e
        | Except.ok s =>
          let (l, s) := rdStr s
          Except.ok (l, s)
      else Except.ok (l, s)
    match step1 with
    | Except.error e => Except.error e
    | Except.ok (l, s) =>
      let step2 : Except GErr (String × List (List (Int × Int)) × S) :=
        if l = "$Entities" then
          match msh_entities fmt s with
          | Except.error e => Except.error e
          | Except.ok (tm, s) =>
            let (l, s) := rdStr s
            Except.ok (l, tm, s)
        else Except.ok (l, [[], [], [], []], s)
      match step2 with
      | Except.error e => Except.error e
      | Except.ok (l, tm, s) =>
        let step3 : Except GErr (String × S) :=
          if l = "$PartitionedEntities" then
            match msh_skip_until "$EndPartitionedEntities" (s.toks.length + 1) s with
            | Except.error e => Except.error e
            | Except.ok s =>
              let (l, s) := rdStr s
              Except.ok (l, s)
          else Except.ok (l, s)
        match step3 with
        | Except.error e => Except.error e
        | Except.ok (l, s) =>
          if l ≠ "$Nodes" then Except.error (GErr.invalidGMSHInput l)
          else Except.ok (fmt, tm, s)

/-- Version-dependent section keyword: version 1 uses the `$NOD`-style
markers, later versions the `$Nodes`-style ones. -/
def msh_marker (fmt : Nat) (v1 v2 : String) : String :=
  if fmt = 10 then v1 else v2

/-- Section-size header of the `$Nodes` and `$Elements` blocks: version
4.1 carries block count, total count and a tag range, version 4.0 block
count and total count, earlier versions a bare total count (lines
1614-1618 and 1708-1718).  Returns (block count, total count, stream). -/
def msh_section_header (fmt : Nat) (s : S) : Nat × Nat × S :=
  if fmt > 40 then
    let p1 := rdInt s
    let p2 := rdNat p1.2
    let p3 := rdInt p2.2
    let p4 := rdInt p3.2
    (p1.1.toNat, p2.1, p4.2)
  else if fmt = 40 then
    let p1 := rdInt s
    let p2 := rdNat p1.2
    (p1.1.toNat, p2.1, p2.2)
  else
    let p1 := rdNat s
    (1, p1.1, p1.2)

/-- Format detection from the first keyword (lines 1420-1432): `$NOD`
selects the version-1 layout, `$MeshFormat` defers to the version-2+
header, anything else is invalid input. -/
def msh_detect (l : String) (s : S) :
    Except GErr (Nat × List (List (Int × Int)) × S) :=
  if l = "$NOD" then Except.ok (10, [[], [], [], []], s)
  else if l = "$MeshFormat" then msh_header2 s
  else Except.error (GErr.invalidGMSHInput l)

/-- The parse of `read_msh` up to and including the element section end
marker and the subsequent stream check (lines 1403-2014). -/
def read_msh_phase1 (dim spacedim : Nat) (s : S) : Except GErr MshPhase1 :=
  if s.bad then Except.error GErr.ioFail
  else
    let (l, s) := rdStr s
    match msh_detect l s with
    | Except.error e => Except.error e
    | Except.ok (fmt, tagMaps, s) =>
      let hN := msh_section_header fmt s
      let nBlocks := hN.1
      let nVerts := hN.2.1
      let s := hN.2.2
      let (verts, vmap, s) := msh_node_blocks fmt spacedim nVerts nBlocks 0 [] [] s
      let (l, s) := rdStr s
      if l ≠ msh_marker fmt "$ENDNOD" "$EndNodes" then
        Except.error (GErr.invalidGMSHInput l)
      else
        let (l, s) := rdStr s
        if l ≠ msh_marker fmt "$ELM" "$Elements" then
          Except.error (GErr.invalidGMSHInput l)
        else
          let hE := msh_section_header fmt s
          let nBlocks2 := hE.1
          let nCells := hE.2.1
          let s := hE.2.2
          match msh_element_blocks fmt dim vmap tagMaps nCells nBlocks2
              { cells := [], blines := [], bquads := [], bids1d := [],
                npoints := 0 } 0 s with
          | Except.error e => Except.error e
          | Except.ok (st, gc, s) =>
            let (l, s) := rdStr s
            if l ≠ msh_marker fmt "$ENDELM" "$EndElements" then
              Except.error (GErr.invalidGMSHInput l)
            else if s.bad then Except.error GErr.ioFail
            else Except.ok { fmt := fmt, verts := verts, vmap := vmap,
                             st := st, declared := nCells, globalCell := gc }

/-- Modelled from the spec: the sink is a black box that validates and
stores the constructed mesh; in 1d a vertex lies on the boundary exactly
when a single cell contains it, which is what the `at_boundary` query of
the constructed triangulation reports. -/
def vertex_at_boundary (cells : List Cell) (v : Nat) : Bool :=
  cells.countP (fun c => c.vertices.contains v) = 1

/-- Face scan of one 1d cell inside `assign_1d_boundary_ids` (grid_in.cc
lines 59-82): a vertex listed in the boundary-id map must be at the
boundary, otherwise the hard failure fires; successful checks record the
boundary id on the vertex. -/
def assign1dFaces (bids : List (Nat × Nat)) (allCells : List Cell) :
    List Nat → List (Nat × Nat) → Option GErr × List (Nat × Nat)
  | [], acc => (none, acc)
  | v :: vs, acc =>
    match mapFind? v bids with
    | some b =>
      if vertex_at_boundary allCells v then
        assign1dFaces bids allCells vs (acc ++ [(v, b)])
      else
        (some (GErr.msg "You are trying to prescribe boundary ids on the face of a 1d cell, but this face is not actually at the boundary of the mesh. This is not allowed."),
         acc)
    | none => assign1dFaces bids allCells vs acc
  /- each 1d cell has two faces, its two vertices, visited in order -/

/-- Cell loop of `assign_1d_boundary_ids`. -/
def assign1dCells (bids : List (Nat × Nat)) (allCells : List Cell) :
    List Cell → List (Nat × Nat) → Option GErr × List (Nat × Nat)
  | [], acc => (none, acc)
  | c :: cs, acc =>
    match assign1dFaces bids allCells c.vertices acc with
    | (some e, acc) => (some e, acc)
    | (none, acc) => assign1dCells bids allCells cs acc

/-- `assign_1d_boundary_ids` run against the already constructed
triangulation: it mutates the sink after the construct call and can fail
partway (returning the error and the state reached). -/
def assign_1d_boundary_ids (bids : List (Nat × Nat)) (t : TriData) :
    Option GErr × TriData :=
  if bids.isEmpty then (none, t)
  else
    match assign1dCells bids t.cells t.cells [] with
    | (e, acc) => (e, { t with vertexBids := acc })

/-- `GridIn::read_msh` including its effect on the sink: after a full
parse the single construct call is issued, and only in 1d a further
post-construct pass assigns per-vertex boundary ids to the already
constructed triangulation and can still fail. -/
def read_msh (dim spacedim : Nat) (s : S) (sink : Sink) :
    Except GErr Unit × Sink :=
  match read_msh_phase1 dim spacedim s with
  | Except.error e => (Except.error e, sink)
  | Except.ok r =>
    if r.st.cells.isEmpty then (Except.error GErr.gmshNoCellInformation, sink)
    else
      let t := cleanupTri r.verts r.st.cells r.st.blines r.st.bquads
      if dim = 1 then
        match assign_1d_boundary_ids r.st.bids1d t with
        | (some e, t2) => (Except.error e, sink ++ [t2])
        | (none, t2) => (Except.ok (), sink ++ [t2])
      else (Except.ok (), sink ++ [t])

/-!
XDA reader, `GridIn<3>::read_xda` (grid_in.cc lines 1325-1399).
-/

/-- The fixed 8-entry lookup table `xda_to_dealII_map` (line 1332). -/
def xda_to_dealII_map : List Nat := [0, 1, 5, 4, 3, 2, 6, 7]

/-- Vertex remap of one 3d XDA cell (lines 1372-1373):
`vertices[i] = xda_ordered_nodes[xda_to_dealII_map[i]]`. -/
def xda_remap_cell (xs : List Nat) : List Nat :=
  xda_to_dealII_map.map (fun i => xs.getD i 0)

/-- The 3d XDA cell loop (lines 1357-1374): eight node numbers per line,
stored through the remap table. -/
def xda_cell_loop : Nat → S → List Cell → Except GErr (List Cell × S)
  | 0, s, cells => Except.ok (cells, s)
  | n + 1, s, cells =>
    if s.bad then Except.error GErr.ioFail
    else
      let (vs, s) := rdNats 8 s
      xda_cell_loop n s
        (cells ++ [{ vertices := xda_remap_cell vs, material_id := 0,
                     manifold_id := flat_manifold_id }])

/-!
ABAQUS to UCD bridge, `Abaqus_to_UCD::read_in_abaqus` (grid_in.cc lines
3587-3914) and its string helpers (`from_string` line 3553,
`extract_int` line 3568).  The bridge works line by line on uppercased
text; these functions operate on the character list of one line.
-/

/-- First position where the pattern occurs (`std::string::find`). -/
def findSub (pat : List Char) : List Char → Option Nat
  | [] => if pat = [] then some 0 else none
  | c :: r =>
    if pat.isPrefixOf (c :: r) then some 0 else (findSub pat r).map (· + 1)

/-- First position of a character in a list. -/
def findCharIn (c : Char) : List Char → Option Nat
  | [] => none
  | d :: r => if d = c then some 0 else (findCharIn c r).map (· + 1)

/-- `std::string::find(c, start)`: first position of the character at or
after `start`. -/
def findCharFrom (c : Char) (l : List Char) (start : Nat) : Option Nat :=
  (findCharIn c (l.drop start)).map (start + ·)

/-- Whitespace test of formatted stream extraction. -/
def isWsChar (c : Char) : Bool :=
  c == ' ' || c == '\t' || c == '\n' || c == '\r'

/-- Numeric value of a digit run. -/
def digitsToInt (ds : List Char) : Int :=
  ds.foldl (fun a d => a * 10 + ((d.toNat - 48 : Nat) : Int)) 0

/-- `istringstream >> int` semantics on a character list
(`from_string` with `std::dec`): skip whitespace, optional sign, a
nonempty digit run; on failure the target is set to 0 (C++11). -/
def parseIntCpp (l : List Char) : Int :=
  let l2 := l.dropWhile isWsChar
  match l2 with
  | '-' :: r =>
    let ds := r.takeWhile Char.isDigit
    if ds.isEmpty then 0 else -(digitsToInt ds)
  | '+' :: r =>
    let ds := r.takeWhile Char.isDigit
    if ds.isEmpty then 0 else digitsToInt ds
  | _ =>
    let ds := l2.takeWhile Char.isDigit
    if ds.isEmpty then 0 else digitsToInt ds

/-- Stream-style integer extraction returning the remaining characters
and a success flag. -/
def readIntStream (l : List Char) : Int × List Char × Bool :=
  let l2 := l.dropWhile isWsChar
  match l2 with
  | '-' :: r =>
    let ds := r.takeWhile Char.isDigit
    if ds.isEmpty then (0, l2, false)
    else (-(digitsToInt ds), r.dropWhile Char.isDigit, true)
  | '+' :: r =>
    let ds := r.takeWhile Char.isDigit
    if ds.isEmpty then (0, l2, false)
    else (digitsToInt ds, r.dropWhile Char.isDigit, true)
  | _ =>
    let ds := l2.takeWhile Char.isDigit
    if ds.isEmpty then (0, l2, false)
    else (digitsToInt ds, l2.dropWhile Char.isDigit, true)

/-- Stream-style single-character extraction (`iss >> comma`). -/
def readCharStream (l : List Char) : Option Char × List Char :=
  match l.dropWhile isWsChar with
  | [] => (none, [])
  | c :: r => (some c, r)

/-- The material id computed by the `*SOLID SECTION` handler (grid_in.cc
lines 3895-3902): an integer is extracted from the text after the first
hyphen found at or after the `MATERIAL=` key.  When the key is missing,
`find` returns `npos` and the unsigned offset arithmetic wraps the search
start to 8; when no hyphen is found, `npos + 1` wraps to 0 and the whole
line is handed to the integer parse. -/
def solid_section_material (l : List Char) : Int :=
  let lastEqual : Nat :=
    match findSub ("MATERIAL=".toList) l with
    | some i => i + 9
    | none => 8
  match findCharFrom ( '-' ) l lastEqual with
  | some j => parseIntCpp (l.drop (j + 1))
  | none => parseIntCpp l

/-- The ELSET name extracted by the `*SOLID SECTION` handler (lines
3885-3890): the text between `ELSET=` and the next comma. -/
def solid_section_elset (l : List Char) : List Char :=
  let start : Nat :=
    match findSub ("ELSET=".toList) l with
    | some i => i + 6
    | none => 5
  match findCharFrom ( ',' ) l (start + 1) with
  | some e => (l.drop start).take (e - start)
  | none => l.drop start

/-- The ELSET name extracted from an `*ELSET` header line (lines
3770-3785): the text between `*ELSET, ELSET=` and the second comma of the
line; if the exact key is absent the name stays empty. -/
def elset_header_name (l : List Char) : List Char :=
  match findSub ("*ELSET, ELSET=".toList) l with
  | none => []
  | some idx =>
    let start := idx + 14
    let secondComma :=
      match findCharIn ( ',' ) l with
      | some fc => findCharFrom ( ',' ) l (fc + 1)
      | none => findCharIn ( ',' ) l
    match secondComma with
    | some e => (l.drop start).take (e - start)
    | none => l.drop start

/-- Parse of the data line of an `*ELSET, GENERATE` card (lines
3798-3834): `start, end[, step]`, with comma checks and the
`start <= end` check. -/
def parse_generate_line (l : List Char) : Except GErr (Int × Int × Int) :=
  let (estart, l1, ok1) := readIntStream l
  let (c1, l2) := if ok1 then readCharStream l1 else (none, l1)
  let (eend, l3, _) :=
    match c1 with
    | some _ => readIntStream l2
    | none => (0, l2, false)
  if c1 ≠ some ',' then
    Except.error (GErr.msg "While reading an ABAQUS file, the reader expected a comma")
  else if ¬ (estart ≤ eend) then
    Except.error (GErr.msg "While reading an ABAQUS file, the reader encountered a GENERATE statement in which the upper bound for the element numbers is not larger or equal than the lower bound")
  else
    let (cFinal, step, _) :=
      if l3.length ≠ 0 then
        match readCharStream l3 with
        | (some ch, l4) =>
          let (st, l5, ok3) := readIntStream l4
          (some ch, if ok3 then st else 0, l5)
        | (none, l4) => (c1, 1, l4)
      else (c1, (1 : Int), l3)
    if cFinal ≠ some ',' then
      Except.error (GErr.msg "While reading an ABAQUS file, the reader expected a comma")
    else Except.ok (estart, eend, step)

/-- The expansion loop `for (int i = elid_start; i <= elid_end;
i += elis_step)` (lines 3836-3837); the fuel covers every positive step
(the C++ loop does not terminate for nonpositive steps). -/
def generate_expand : Nat → Int → Int → Int → List Int
  | 0, _, _, _ => []
  | fuel + 1, i, e, st => if i ≤ e then i :: generate_expand fuel (i + st) e st else []

/-- Element list of an `*ELSET, GENERATE` range. -/
def abq_generate (a b st : Int) : List Int :=
  generate_expand ((b - a).toNat + 1) a b st

/-- Handle an `*ELSET, GENERATE` card: header line plus one data line,
storing the expanded element list under the extracted name. -/
def abq_elset_generate (header dataLine : List Char)
    (elsets : List (List Char × List Int)) :
    Except GErr (List (List Char × List Int)) :=
  match parse_generate_line dataLine with
  | Except.error e => Except.error e
  | Except.ok (a, b, st) =>
    Except.ok (mapInsert (elset_header_name header) (abq_generate a b st) elsets)

/-- Write a material id into slot 0 of one row of the bridge cell list
(`cell_list[cell_id][0] = material_id`). -/
def setMat (cl : List (List ℚ)) (idx : Nat) (mat : Int) : List (List ℚ) :=
  match cl.get? idx with
  | some row => cl.set idx (row.set 0 (mat : ℚ))
  | none => cl

/-- Assign a material id to every cell of an element list (lines
3904-3910; `cell_id = elset_cell - 1`).  Out-of-range element numbers
have no defined behaviour in the C++ code and leave the list unchanged
here. -/
def abq_apply_solid (cl : List (List ℚ)) (elems : List Int) (mat : Int) :
    List (List ℚ) :=
  elems.foldl
    (fun cl e => if 1 ≤ e then setMat cl (e - 1).toNat mat else cl) cl

/-- Handle a `*SOLID SECTION` card against the stored ELSET table and the
bridge cell list (lines 3882-3911). -/
def abq_solid_section (line : List Char)
    (elsets : List (List Char × List Int)) (cl : List (List ℚ)) :
    List (List ℚ) :=
  abq_apply_solid cl ((mapFind? (solid_section_elset line) elsets).getD []) (solid_section_material line)

/-!
2d tecplot reader, `GridIn<2>::read_tecplot` (grid_in.cc lines
2736-2973).  The header has already been digested by
`parse_tecplot_header` into the variable-to-coordinate map, the counts
and the structured/blocked flags; the reader is embedded from that
boundary on.  Note the artificial vertex: the vertex array has
`n_vertices + 1` entries and slot 0 holds the origin, because tecplot
connectivity is 1-based (lines 2782-2789).
-/

/-- Header data delivered by `parse_tecplot_header`; for structured
zones that function guarantees `n_vertices = I * J` and
`n_cells = (I-1) * (J-1)` (lines 2701-2714). -/
structure TecHeader where
  t2d0 : Nat
  t2d1 : Nat
  nVars : Nat
  nVerts : Nat
  nCells : Nat
  iDim : Nat
  jDim : Nat
  structured : Bool
  blocked : Bool
deriving DecidableEq, Repr

/-- Read one variable column (one value per vertex). -/
def tec_read_var : Nat → S → List ℚ × S
  | 0, s => ([], s)
  | n + 1, s =>
    let (v, s) := rdQ s
    let (vs, s) := tec_read_var n s
    (v :: vs, s)

/-- The main variable loop of the blocked branch (lines 2832-2858):
coordinate columns are kept, other columns are read and dropped, and for
structured grids reading stops once both coordinates are in. -/
def tec_blocked_go (t2d0 t2d1 nV : Nat) (structured : Bool) :
    Nat → Nat → Nat → List ℚ → List ℚ → S → List ℚ × List ℚ × S
  | 0, _, _, xs, ys, s => (xs, ys, s)
  | rem + 1, i, next, xs, ys, s =>
    if next = 2 ∧ structured then (xs, ys, s)
    else if next < 2 ∧ i = (if next = 0 then t2d0 else t2d1) then
      let (v, s) := tec_read_var nV s
      if next = 0 then tec_blocked_go t2d0 t2d1 nV structured rem (i + 1) 1 v ys s
      else tec_blocked_go t2d0 t2d1 nV structured rem (i + 1) 2 xs v s
    else
      let s := (tec_read_var nV s).2
      tec_blocked_go t2d0 t2d1 nV structured rem (i + 1) next xs ys s

/-- The blocked data format (lines 2794-2859): one column per variable.
The C++ code takes the first column out of the line buffer left over from
header parsing; here all columns come uniformly from the stream. -/
def tec_blocked (t2d0 t2d1 nVars nV : Nat) (structured : Bool) (s : S) :
    List ℚ × List ℚ × S :=
  let (xs, next, s) :=
    if t2d0 = 0 then
      let (v, s) := tec_read_var nV s
      (v, 1, s)
    else (List.replicate nV 0, 0, s)
  tec_blocked_go t2d0 t2d1 nV structured (nVars - 1) 1 next xs
    (List.replicate nV 0) s

/-- The point data format (lines 2861-2892): all variables of one vertex
at a time; the two coordinate positions are kept. -/
def tec_point_fill (t2d0 t2d1 nVars : Nat) :
    Nat → S → List ℚ × List ℚ × S
  | 0, s => ([], [], s)
  | n + 1, s =>
    let (vals, s) := tec_read_var nVars s
    let (xs, ys, s) := tec_point_fill t2d0 t2d1 nVars n s
    (vals.getD t2d0 0 :: xs, vals.getD t2d1 0 :: ys, s)

/-- The cell array of a structured zone (lines 2902-2910): quads built
from the I times J point grid, all vertex references at least 1. -/
def tec_structured_cells (iDim jDim : Nat) : List (List Nat) :=
  (List.range (jDim - 1)).flatMap (fun j =>
    (List.range' 1 (iDim - 1)).map (fun i =>
      [i + j * iDim, i + 1 + j * iDim, i + 1 + (j + 1) * iDim,
       i + (j + 1) * iDim]))

/-- The boundary vertices of a structured zone (lines 2912-2927), the
considered set handed to duplicate removal. -/
def tec_boundary_vertices (iDim jDim : Nat) : List Nat :=
  ((List.range' 1 iDim).flatMap (fun i => [i, i + (jDim - 1) * iDim])) ++
  ((List.range' 1 (jDim - 2)).flatMap (fun j => [1 + j * iDim, iDim + j * iDim]))

/-- The unstructured connectivity loop (lines 2944-2957): four vertex
numbers per cell, taken from the file as is. -/
def tec_unstructured_cells : Nat → S → Except GErr (List (List Nat) × S)
  | 0, s => Except.ok ([], s)
  | n + 1, s =>
    if s.bad then Except.error GErr.ioFail
    else
      let (vs, s) := rdNats 4 s
      match tec_unstructured_cells n s with
      | Except.error e => Except.error e
      | Except.ok (cs, s) => Except.ok (vs :: cs, s)

/-- Output of the 2d tecplot reader: the vertex and cell data handed to
the sink, together with the pre-cleanup arrays for specification
purposes. -/
structure TecResult where
  rawVerts : List (List ℚ)
  rawCells : List (List Nat)
  verts : List (List ℚ)
  cells : List (List Nat)
deriving DecidableEq, Repr

/-- Coordinate extraction of the 2d tecplot reader: blocked files store
one column per variable, point files one row per vertex. -/
def tec_coords (h : TecHeader) (s : S) : List ℚ × List ℚ × S :=
  if h.blocked then tec_blocked h.t2d0 h.t2d1 h.nVars h.nVerts h.structured s
  else tec_point_fill h.t2d0 h.t2d1 h.nVars h.nVerts s

/-- `GridIn<2>::read_tecplot` from the header boundary to the construct
call; the duplicate tolerance of `delete_duplicated_vertices` is
abstracted into the closeness test. -/
def read_tecplot2_core (close : List ℚ → List ℚ → Bool) (h : TecHeader)
    (s : S) : Except GErr TecResult :=
  let c := tec_coords h s
  let xs := c.1
  let ys := c.2.1
  let s := c.2.2
  let rawVerts := [(0 : ℚ), 0] :: List.zipWith (fun x y => [x, y]) xs ys
  if h.structured then
    let rawCells := tec_structured_cells h.iDim h.jDim
    let (verts2, cells2) :=
      delete_duplicated_vertices close (tec_boundary_vertices h.iDim h.jDim)
        rawVerts rawCells
    if s.bad then Except.error GErr.ioFail
    else Except.ok { rawVerts := rawVerts, rawCells := rawCells,
                     verts := verts2, cells := cells2 }
  else
    match tec_unstructured_cells h.nCells s with
    | Except.error e => Except.error e
    | Except.ok (rawCells, s) =>
      let (verts2, rw) := delete_unused_vertices rawVerts rawCells
      if s.bad then Except.error GErr.ioFail
      else Except.ok { rawVerts := rawVerts, rawCells := rawCells,
                       verts := verts2, cells := rawCells.map (List.map rw) }

/-- Token list of a run of unsigned integers, as written in a mesh
file. -/
def natToks (vs : List Nat) : List Tok :=
  vs.map (fun v => Tok.int (Int.ofNat v))

/-- One entity record of a VTK `CELLS` section, as it stands in the input
file: the leading vertex count (8, 4 or 2) followed by that many vertex
references. -/
inductive VEnt where
  | cell8 : List Nat → VEnt
  | quad4 : List Nat → VEnt
  | line2 : List Nat → VEnt
deriving DecidableEq, Repr

/-- The token run of one `CELLS` entity record. -/
def ventToks : VEnt → List Tok
  | VEnt.cell8 vs => Tok.int (Int.ofNat 8) :: natToks vs
  | VEnt.quad4 vs => Tok.int (Int.ofNat 4) :: natToks vs
  | VEnt.line2 vs => Tok.int (Int.ofNat 2) :: natToks vs

/-- The token run of a sequence of `CELLS` entity records. -/
def ventsToks (es : List VEnt) : List Tok :=
  (es.map ventToks).flatten

/-- Well-formed entity record: the vertex count matches the type code and
every reference fits the unsigned width. -/
def ventWf : VEnt → Bool
  | VEnt.cell8 vs => vs.length == 8 && vs.all (fun v => v < 4294967296)
  | VEnt.quad4 vs => vs.length == 4 && vs.all (fun v => v < 4294967296)
  | VEnt.line2 vs => vs.length == 2 && vs.all (fun v => v < 4294967296)

/-- Is the record a hexahedron cell record. -/
def ventIsHex : VEnt → Bool
  | VEnt.cell8 _ => true
  | _ => false

/-- Is the record a quad record. -/
def ventIsQuad : VEnt → Bool
  | VEnt.quad4 _ => true
  | _ => false

/-- Is the record a line record. -/
def ventIsLine : VEnt → Bool
  | VEnt.line2 _ => true
  | _ => false

/-- Extract the payload of a successful parse, with an explicit default
for the error case (used to name concrete parse results). -/
def getOk {A : Type} (d : A) : Except GErr A → A
  | Except.ok r => r
  | Except.error _ => d

/-- Observed entity count (cells plus boundary lines plus boundary quads)
of a finished MSH parse. -/
def phase1EntityCount : Except GErr MshPhase1 → Option Nat
  | Except.ok r =>
    some (r.st.cells.length + r.st.blines.length + r.st.bquads.length)
  | Except.error _ => none

/-- Declared element-section count of a finished MSH parse. -/
def phase1Declared : Except GErr MshPhase1 → Option Nat
  | Except.ok r => some r.declared
  | Except.error _ => none

/-- A version-1 MSH token stream: four vertices, an element section
declaring two records holding one quadrilateral and one type-15 point
element. -/
def mshPointFile : S :=
  { toks := [Tok.word "$NOD", Tok.int 4,
      Tok.int 1, Tok.int 0, Tok.int 0, Tok.int 0,
      Tok.int 2, Tok.int 1, Tok.int 0, Tok.int 0,
      Tok.int 3, Tok.int 1, Tok.int 1, Tok.int 0,
      Tok.int 4, Tok.int 0, Tok.int 1, Tok.int 0,
      Tok.word "$ENDNOD", Tok.word "$ELM", Tok.int 2,
      Tok.int 1, Tok.int 3, Tok.int 9, Tok.int 0, Tok.int 4,
      Tok.int 1, Tok.int 2, Tok.int 3, Tok.int 4,
      Tok.int 2, Tok.int 15, Tok.int 5, Tok.int 0, Tok.int 1, Tok.int 2,
      Tok.word "$ENDELM"], bad := false }

/-- A version-1 MSH token stream holding exactly one quadrilateral. -/
def mshQuadFile : S :=
  { toks := [Tok.word "$NOD", Tok.int 4,
      Tok.int 1, Tok.int 0, Tok.int 0, Tok.int 0,
      Tok.int 2, Tok.int 1, Tok.int 0, Tok.int 0,
      Tok.int 3, Tok.int 1, Tok.int 1, Tok.int 0,
      Tok.int 4, Tok.int 0, Tok.int 1, Tok.int 0,
      Tok.word "$ENDNOD", Tok.word "$ELM", Tok.int 1,
      Tok.int 1, Tok.int 3, Tok.int 9, Tok.int 0, Tok.int 4,
      Tok.int 1, Tok.int 2, Tok.int 3, Tok.int 4,
      Tok.word "$ENDELM"], bad := false }

/-- Header lines of a minimal VTK file. -/
def vtkQuadHeader : List String :=
  ["# vtk DataFile Version 3.0", "square", "ASCII",
   "DATASET UNSTRUCTURED_GRID"]

/-- Body of a minimal VTK file: four points and one quad cell. -/
def vtkQuadFile : S :=
  { toks := [Tok.word "POINTS", Tok.int 4, Tok.word "double",
      Tok.int 0, Tok.int 0, Tok.int 0,
      Tok.int 1, Tok.int 0, Tok.int 0,
      Tok.int 1, Tok.int 1, Tok.int 0,
      Tok.int 0, Tok.int 1, Tok.int 0,
      Tok.word "CELLS", Tok.int 1, Tok.int 5,
      Tok.int 4, Tok.int 0, Tok.int 1, Tok.int 3, Tok.int 2,
      Tok.word "CELL_TYPES", Tok.int 1, Tok.int 9], bad := false }

/-- A minimal UCD token stream: four vertices and one quad cell. -/
def ucdQuadFile : S :=
  { toks := [Tok.int 4, Tok.int 1, Tok.int 0, Tok.int 0, Tok.int 0,
      Tok.int 1, Tok.int 0, Tok.int 0, Tok.int 0,
      Tok.int 2, Tok.int 1, Tok.int 0, Tok.int 0,
      Tok.int 3, Tok.int 1, Tok.int 1, Tok.int 0,
      Tok.int 4, Tok.int 0, Tok.int 1, Tok.int 0,
      Tok.int 1, Tok.int 7, Tok.word "quad",
      Tok.int 1, Tok.int 2, Tok.int 3, Tok.int 4], bad := false }

/-- Result of parsing the minimal VTK file. -/
def vtkQuadRes : VtkResult :=
  getOk { verts := [], cells := [], blines := [], bquads := [], declared := 0 }
    (read_vtk_core 2 2 vtkQuadHeader vtkQuadFile)

/-- Result of parsing the minimal UCD file. -/
def ucdQuadRes : UcdResult :=
  getOk { verts := [], cells := [], blines := [], bquads := [],
          declaredCells := 0 }
    (read_ucd_core 2 2 false ucdQuadFile)

/-- Result of parsing the one-quad MSH file. -/
def mshQuadRes : MshPhase1 :=
  getOk { fmt := 0, verts := [], vmap := [],
          st := { cells := [], blines := [], bquads := [], bids1d := [],
                  npoints := 0 },
          declared := 0, globalCell := 0 }
    (read_msh_phase1 2 2 mshQuadFile)

/-- A version-1 MSH token stream whose element section holds a single
boundary line and no top-dimension cell (for a 2d read). -/
def mshLineOnlyFile : S :=
  { toks := [Tok.word "$NOD", Tok.int 2,
      Tok.int 1, Tok.int 0, Tok.int 0, Tok.int 0,
      Tok.int 2, Tok.int 1, Tok.int 0, Tok.int 0,
      Tok.word "$ENDNOD", Tok.word "$ELM", Tok.int 1,
      Tok.int 1, Tok.int 1, Tok.int 5, Tok.int 0, Tok.int 2,
      Tok.int 1, Tok.int 2,
      Tok.word "$ENDELM"], bad := false }

/-- Result of parsing the boundary-line-only MSH file. -/
def mshLineOnlyRes : MshPhase1 :=
  getOk { fmt := 0, verts := [], vmap := [],
          st := { cells := [], blines := [], bquads := [], bids1d := [],
                  npoints := 0 },
          declared := 0, globalCell := 0 }
    (read_msh_phase1 2 2 mshLineOnlyFile)

/-- A version-1 MSH token stream for a 1d read: three vertices, two line
cells, and a type-15 point element that prescribes a boundary id on the
shared interior vertex. -/
def msh1dBadFile : S :=
  { toks := [Tok.word "$NOD", Tok.int 3,
      Tok.int 1, Tok.int 0, Tok.int 0, Tok.int 0,
      Tok.int 2, Tok.int 1, Tok.int 0, Tok.int 0,
      Tok.int 3, Tok.int 2, Tok.int 0, Tok.int 0,
      Tok.word "$ENDNOD", Tok.word "$ELM", Tok.int 3,
      Tok.int 1, Tok.int 1, Tok.int 7, Tok.int 0, Tok.int 2,
      Tok.int 1, Tok.int 2,
      Tok.int 2, Tok.int 1, Tok.int 7, Tok.int 0, Tok.int 2,
      Tok.int 2, Tok.int 3,
      Tok.int 3, Tok.int 15, Tok.int 9, Tok.int 0, Tok.int 1, Tok.int 2,
      Tok.word "$ENDELM"], bad := false }

/-- Unstructured two-variable tecplot header for three vertices and one
cell. -/
def tecCEHeader : TecHeader :=
  { t2d0 := 0, t2d1 := 1, nVars := 2, nVerts := 3, nCells := 1,
    iDim := 0, jDim := 0, structured := false, blocked := false }

/-- Point-format data for `tecCEHeader` whose single connectivity record
names vertex number 0 — the artificial origin slot. -/
def tecCEFile : S :=
  { toks := [Tok.int 1, Tok.int 0, Tok.int 2, Tok.int 0, Tok.int 3, Tok.int 0,
      Tok.int 0, Tok.int 1, Tok.int 2, Tok.int 3], bad := false }

/-- Result of the tecplot parse that references the artificial vertex. -/
def tecCERes : TecResult :=
  getOk { rawVerts := [], rawCells := [], verts := [], cells := [] }
    (read_tecplot2_core (fun _ _ => false) tecCEHeader tecCEFile)

/-- Unstructured two-variable tecplot header for four vertices and one
cell. -/
def tecOkHeader : TecHeader :=
  { t2d0 := 0, t2d1 := 1, nVars := 2, nVerts := 4, nCells := 1,
    iDim := 0, jDim := 0, structured := false, blocked := false }

/-- Point-format data for `tecOkHeader` with ordinary 1-based
connectivity. -/
def tecOkFile : S :=
  { toks := [Tok.int 0, Tok.int 0, Tok.int 1, Tok.int 0,
      Tok.int 1, Tok.int 1, Tok.int 0, Tok.int 1,
      Tok.int 1, Tok.int 2, Tok.int 3, Tok.int 4], bad := false }

/-- Result of the well-formed tecplot parse. -/
def tecOkRes : TecResult :=
  getOk { rawVerts := [], rawCells := [], verts := [], cells := [] }
    (read_tecplot2_core (fun _ _ => false) tecOkHeader tecOkFile)

-- DEFINITIONS ABOVE THIS LINE; THEOREMS BELOW

/-!
Theorems.  First some evaluation lemmas for the token stream.
-/

theorem rdNat_int_cons (i : Int) (r : List Tok) :
    rdNat { toks := Tok.int i :: r, bad := false } =
      (((i % 4294967296).toNat), { toks := r, bad := false }) := rfl

theorem rdNat_nat_cons (v : Nat) (h : v < 4294967296) (r : List Tok) :
    rdNat { toks := Tok.int (Int.ofNat v) :: r, bad := false } =
      (v, { toks := r, bad := false }) := by
  rw [rdNat_int_cons]
  have h2 : ((Int.ofNat v % 4294967296).toNat) = v := by
    rw [Int.ofNat_eq_natCast]
    omega
  rw [h2]

theorem rdNats_natToks (vs : List Nat) (h : ∀ v ∈ vs, v < 4294967296)
    (r : List Tok) :
    rdNats vs.length { toks := natToks vs ++ r, bad := false } =
      (vs, { toks := r, bad := false }) := by
  induction vs with
  | nil => rfl
  | cons v vs ih =>
    have hv : v < 4294967296 := h v (List.mem_cons_self v vs)
    have hrec := ih (fun w hw => h w (List.mem_cons_of_mem v hw))
    show rdNats (vs.length + 1) _ = _
    rw [rdNats]
    simp only [natToks, List.map_cons, List.cons_append]
    rw [rdNat_nat_cons v hv]
    simp only [natToks] at hrec
    rw [hrec]

theorem rdNats_natToks_n (vs : List Nat) (k : Nat) (hk : vs.length = k)
    (h : ∀ v ∈ vs, v < 4294967296) (r : List Tok) :
    rdNats k { toks := natToks vs ++ r, bad := false } =
      (vs, { toks := r, bad := false }) := by
  subst hk
  exact rdNats_natToks vs h r

/-- C7: in the 3d XDA reader, a cell line listing node numbers x0..x7 is
stored with vertex array (x0, x1, x5, x4, x3, x2, x6, x7); that is,
`vertices[i] = x[m[i]]` for the fixed table m = {0, 1, 5, 4, 3, 2, 6, 7}. -/
theorem xda_hex_vertex_order (x0 x1 x2 x3 x4 x5 x6 x7 : Nat)
    (hs : ∀ v ∈ [x0, x1, x2, x3, x4, x5, x6, x7], v < 4294967296) :
    xda_remap_cell [x0, x1, x2, x3, x4, x5, x6, x7] =
      [x0, x1, x5, x4, x3, x2, x6, x7] ∧
    xda_to_dealII_map = [0, 1, 5, 4, 3, 2, 6, 7] ∧
    xda_cell_loop 1
      { toks := natToks [x0, x1, x2, x3, x4, x5, x6, x7], bad := false } [] =
      Except.ok ([{ vertices := [x0, x1, x5, x4, x3, x2, x6, x7],
                    material_id := 0, manifold_id := flat_manifold_id }],
                 { toks := [], bad := false }) := by
  refine ⟨rfl, rfl, ?_⟩
  have h8 := rdNats_natToks_n [x0, x1, x2, x3, x4, x5, x6, x7] 8 rfl hs []
  rw [List.append_nil] at h8
  show xda_cell_loop (0 + 1) _ [] = _
  rw [xda_cell_loop]
  simp only [Bool.false_eq_true, if_false]
  rw [h8]
  rfl

/-- Closed instance of the XDA vertex-order theorem at concrete node
numbers. -/
theorem xda_hex_vertex_order_witness :
    xda_remap_cell [10, 11, 12, 13, 14, 15, 16, 17] =
      [10, 11, 15, 14, 13, 12, 16, 17] ∧
    xda_to_dealII_map = [0, 1, 5, 4, 3, 2, 6, 7] ∧
    xda_cell_loop 1
      { toks := natToks [10, 11, 12, 13, 14, 15, 16, 17], bad := false } [] =
      Except.ok ([{ vertices := [10, 11, 15, 14, 13, 12, 16, 17],
                    material_id := 0, manifold_id := flat_manifold_id }],
                 { toks := [], bad := false }) :=
  xda_hex_vertex_order 10 11 12 13 14 15 16 17 (by decide)

theorem rdInt_int_cons (i : Int) (r : List Tok) :
    rdInt { toks := Tok.int i :: r, bad := false } = (i, { toks := r, bad := false }) := rfl

theorem rdStr_word_cons (w : String) (r : List Tok) :
    rdStr { toks := Tok.word w :: r, bad := false } = (w, { toks := r, bad := false }) := rfl

theorem rdQ_int_cons (i : Int) (r : List Tok) :
    rdQ { toks := Tok.int i :: r, bad := false } = ((i : ℚ), { toks := r, bad := false }) := rfl

/-- C3: in the UCD parser, a boundary line or boundary quad carrying the
tag read from the file gets, when `apply_all_indicators_to_manifolds` is
off, that tag as `boundary_id` and the flat sentinel as `manifold_id`;
when the flag is on, the internal-face sentinel as `boundary_id` and the
tag as `manifold_id`.  The last conjunct shows the cell loop routing a
boundary line record through exactly this assignment. -/
theorem ucd_boundary_tag_assignment (tag : Nat) (vs2 vs4 : List Nat)
    (flag : Bool) (htag : tag < 4294967296) :
    ((mkUcdBLine false tag vs2).boundary_id = tag ∧
     (mkUcdBLine false tag vs2).manifold_id = flat_manifold_id) ∧
    ((mkUcdBLine true tag vs2).boundary_id = internal_face_boundary_id ∧
     (mkUcdBLine true tag vs2).manifold_id = tag) ∧
    ((mkUcdBQuad false tag vs4).boundary_id = tag ∧
     (mkUcdBQuad false tag vs4).manifold_id = flat_manifold_id) ∧
    ((mkUcdBQuad true tag vs4).boundary_id = internal_face_boundary_id ∧
     (mkUcdBQuad true tag vs4).manifold_id = tag) ∧
    ucd_cell_loop 2 flag [(1, 0), (2, 1)] 1
      { toks := [Tok.int 5, Tok.int (Int.ofNat tag), Tok.word "line",
                 Tok.int 1, Tok.int 2], bad := false } [] [] [] =
      Except.ok ([], [mkUcdBLine flag tag [0, 1]], [],
                 { toks := [], bad := false }) := by
  refine ⟨⟨rfl, rfl⟩, ⟨rfl, rfl⟩, ⟨rfl, rfl⟩, ⟨rfl, rfl⟩, ?_⟩
  show ucd_cell_loop 2 flag [(1, 0), (2, 1)] (0 + 1) _ [] [] [] = _
  rw [ucd_cell_loop]
  simp only [Bool.false_eq_true, if_false, rdInt_int_cons, rdNat_nat_cons tag htag,
    rdStr_word_cons]
  norm_num [rdNats, rdNat_int_cons, ucd_xlat_strict, mapFind?, ucd_cell_loop]
  intro h
  exact absurd h (by decide)

/-- Closed instance of the UCD boundary tag theorem at tag 7 with both
flag values exercised through the quantifier instances. -/
theorem ucd_boundary_tag_assignment_witness :
    ((mkUcdBLine false 7 [0, 1]).boundary_id = 7 ∧
     (mkUcdBLine false 7 [0, 1]).manifold_id = flat_manifold_id) ∧
    ((mkUcdBLine true 7 [0, 1]).boundary_id = internal_face_boundary_id ∧
     (mkUcdBLine true 7 [0, 1]).manifold_id = 7) ∧
    ((mkUcdBQuad false 7 [0, 1, 2, 3]).boundary_id = 7 ∧
     (mkUcdBQuad false 7 [0, 1, 2, 3]).manifold_id = flat_manifold_id) ∧
    ((mkUcdBQuad true 7 [0, 1, 2, 3]).boundary_id = internal_face_boundary_id ∧
     (mkUcdBQuad true 7 [0, 1, 2, 3]).manifold_id = 7) ∧
    ucd_cell_loop 2 true [(1, 0), (2, 1)] 1
      { toks := [Tok.int 5, Tok.int (Int.ofNat 7), Tok.word "line",
                 Tok.int 1, Tok.int 2], bad := false } [] [] [] =
      Except.ok ([], [mkUcdBLine true 7 [0, 1]], [],
                 { toks := [], bad := false }) :=
  ucd_boundary_tag_assignment 7 [0, 1] [0, 1, 2, 3] true (by decide)

theorem findCharIn_split (a b : List Char) (c : Char) (ha : c ∉ a) :
    findCharIn c (a ++ c :: b) = some a.length := by
  induction a with
  | nil => simp [findCharIn]
  | cons d a ih =>
    have hd : d ≠ c := fun h => ha (h ▸ List.mem_cons_self d a)
    have ha2 : c ∉ a := fun h => ha (List.mem_cons_of_mem d h)
    simp [findCharIn, hd, ih ha2]

/-- C4 counterexample: the claim predicts material id 12 for
`MATERIAL=STEEL-GRADE-12` (digits after the final hyphen); the code
extracts from after the first hyphen following `MATERIAL=`, where the
integer parse fails and yields 0. -/
theorem solid_section_material_final_hyphen_counterexample :
    solid_section_material
        ("*SOLID SECTION, ELSET=ES1, MATERIAL=STEEL-GRADE-12".toList) = 0 ∧
    solid_section_material
        ("*SOLID SECTION, ELSET=ES1, MATERIAL=STEEL-GRADE-12".toList) ≠ 12 := by
  constructor
  · decide
  · decide

/-- C4 amended: on a `*SOLID SECTION` card the material id is the integer
parsed from the characters that follow the first hyphen at or after the
`MATERIAL=` key (0 when those characters do not start with an optionally
signed digit run), not the digits after the final hyphen. -/
theorem solid_section_material_first_hyphen (line a b : List Char) (k : Nat)
    (hfind : findSub ("MATERIAL=".toList) line = some k)
    (hdrop : line.drop (k + 9) = a ++ ( '-' ) :: b)
    (ha : ( '-' ) ∉ a) :
    solid_section_material line = parseIntCpp b := by
  unfold solid_section_material
  rw [hfind]
  have hfrom : findCharFrom ( '-' ) line (k + 9) = some ((k + 9) + a.length) := by
    unfold findCharFrom
    rw [hdrop, findCharIn_split a b ( '-' ) ha]
    rfl
  show (match findCharFrom ( '-' ) line (k + 9) with
        | some j => parseIntCpp (line.drop (j + 1))
        | none => parseIntCpp line) = parseIntCpp b
  rw [hfrom]
  show parseIntCpp (line.drop ((k + 9 + a.length) + 1)) = parseIntCpp b
  have hrest : line.drop ((k + 9 + a.length) + 1) = b := by
    have h1 := List.drop_drop (a.length + 1) (k + 9) line
    rw [hdrop] at h1
    have h2 : (a ++ ( '-' ) :: b).drop (a.length + 1) = b := by
      have h3 : a ++ ( '-' ) :: b = (a ++ [( '-' )]) ++ b := by simp
      rw [h3, show a.length + 1 = (a ++ [( '-' )]).length by simp, List.drop_left]
    rw [h2] at h1
    rw [show (k + 9 + a.length) + 1 = (k + 9) + (a.length + 1) by omega, ← h1]
  rw [hrest]

/-- Closed instance of the first-hyphen material rule: `MATERIAL-7`
yields 7. -/
theorem solid_section_material_first_hyphen_witness :
    solid_section_material
      ("*SOLID SECTION, ELSET=ES2, MATERIAL=MATERIAL-7".toList) = 7 := by
  have h := solid_section_material_first_hyphen
    ("*SOLID SECTION, ELSET=ES2, MATERIAL=MATERIAL-7".toList)
    ("MATERIAL".toList) ("7".toList) 27 (by decide) (by decide) (by decide)
  rw [h]
  decide

/-- C5: the ABAQUS bridge expands the GENERATE data line `1,5,2` to the
elements 1, 3, 5, and a subsequent `*SOLID SECTION` card referencing that
ELSET with `MATERIAL=MATERIAL-7` sets material id 7 on exactly the cells
1, 3 and 5 of a six-cell list and on no other cell. -/
theorem abaqus_elset_generate_solid_section_scenario :
    abq_generate 1 5 2 = [1, 3, 5] ∧
    abq_elset_generate ("*ELSET, ELSET=ES1, GENERATE".toList) ("1,5,2".toList) [] =
      Except.ok [("ES1".toList, [1, 3, 5])] ∧
    abq_solid_section ("*SOLID SECTION, ELSET=ES1, MATERIAL=MATERIAL-7".toList)
      [("ES1".toList, [1, 3, 5])]
      [[0, 11, 12], [0, 21, 22], [0, 31, 32], [0, 41, 42], [0, 51, 52], [0, 61, 62]] =
      [[7, 11, 12], [0, 21, 22], [7, 31, 32], [0, 41, 42], [7, 51, 52], [0, 61, 62]] := by
  refine ⟨by decide, by rfl, ?_⟩
  rfl

/-!
Lemmas about the canonicalizer: a merge-and-sweep pass that does not
change the vertex count changes nothing at all.
-/

theorem mergeAssign_length {V : Type} (close : V → V → Bool) (pt : Nat → Bool)
    (vs : List V) (pool : List (Nat × V)) (i : Nat) :
    (mergeAssign close pt vs pool i).length = vs.length := by
  induction vs generalizing pool i with
  | nil => rfl
  | cons v vs ih =>
    rw [mergeAssign]
    by_cases hp : pt i
    · simp only [hp, if_true]
      cases hf : pool.find? (fun jq => close jq.2 v) with
      | some jq => simp [ih]
      | none => simp [ih]
    · simp only [hp, Bool.false_eq_true, if_false, List.length_cons, ih]

theorem mergeAssign_all_true {V : Type} (close : V → V → Bool) (pt : Nat → Bool)
    (vs : List V) (pool : List (Nat × V)) (i : Nat)
    (h : ∀ x ∈ mergeAssign close pt vs pool i, x.1 = true) :
    mergeAssign close pt vs pool i =
      (List.range' i vs.length).map (fun k => ((true : Bool), k)) := by
  induction vs generalizing pool i with
  | nil => rfl
  | cons v vs ih =>
    rw [mergeAssign] at h ⊢
    by_cases hp : pt i
    · simp only [hp, if_true] at h ⊢
      cases hf : pool.find? (fun jq => close jq.2 v) with
      | some jq =>
        rw [hf] at h
        have := h (false, jq.1) (List.mem_cons_self _ _)
        simp at this
      | none =>
        rw [hf] at h
        have hrec := ih (pool ++ [(i, v)]) (i + 1)
          (fun x hx => h x (List.mem_cons_of_mem _ hx))
        show (true, i) :: mergeAssign close pt vs (pool ++ [(i, v)]) (i + 1) = _
        simp only [List.length_cons, List.range', List.map_cons]
        rw [hrec]
    · simp only [hp, Bool.false_eq_true, if_false] at h ⊢
      have hrec := ih pool (i + 1) (fun x hx => h x (List.mem_cons_of_mem _ hx))
      simp only [List.length_cons, List.range', List.map_cons]
      rw [hrec]

theorem keepByFlags_length_le {V : Type} (vs : List V) (fs : List (Bool × Nat)) :
    (keepByFlags vs fs).length ≤ vs.length := by
  induction vs generalizing fs with
  | nil => cases fs <;> simp [keepByFlags]
  | cons v vs ih =>
    cases fs with
    | nil => simp [keepByFlags]
    | cons f fs =>
      rw [keepByFlags]
      by_cases hf : f.1
      · rw [if_pos hf]
        simp only [List.length_cons]
        exact Nat.succ_le_succ (ih fs)
      · rw [if_neg hf]
        simp only [List.length_cons]
        exact Nat.le_succ_of_le (ih fs)

theorem keepByFlags_all_true {V : Type} (vs : List V) (fs : List (Bool × Nat))
    (hl : fs.length = vs.length) (h : ∀ x ∈ fs, x.1 = true) :
    keepByFlags vs fs = vs := by
  induction vs generalizing fs with
  | nil => cases fs <;> simp_all [keepByFlags]
  | cons v vs ih =>
    cases fs with
    | nil => simp at hl
    | cons f fs =>
      have hf : f.1 = true := h f (List.mem_cons_self _ _)
      rw [keepByFlags, if_pos hf]
      rw [ih fs (by simpa using hl) (fun x hx => h x (List.mem_cons_of_mem _ hx))]

theorem keepByFlags_len_all_true {V : Type} (vs : List V) (fs : List (Bool × Nat))
    (hl : fs.length = vs.length)
    (hk : (keepByFlags vs fs).length = vs.length) :
    ∀ x ∈ fs, x.1 = true := by
  induction vs generalizing fs with
  | nil =>
    cases fs with
    | nil => intro x hx; cases hx
    | cons f fs => simp at hl
  | cons v vs ih =>
    cases fs with
    | nil => simp at hl
    | cons f fs =>
      have hlen : fs.length = vs.length := by simpa using hl
      by_cases hf : f.1
      · intro x hx
        cases hx with
        | head => exact hf
        | tail _ hx =>
          apply ih fs hlen _ x hx
          rw [keepByFlags, if_pos hf] at hk
          simpa using hk
      · exfalso
        rw [keepByFlags, if_neg hf] at hk
        simp only [List.length_cons] at hk
        have := keepByFlags_length_le vs fs
        omega

theorem posTrue_all_true (fs : List (Bool × Nat)) (i : Nat)
    (h : ∀ x ∈ fs, x.1 = true) :
    posTrue fs i = List.range' i fs.length := by
  induction fs generalizing i with
  | nil => rfl
  | cons f fs ih =>
    have hf : f.1 = true := h f (List.mem_cons_self _ _)
    obtain ⟨f1, f2⟩ := f
    simp only at hf
    subst hf
    rw [posTrue]
    simp only [if_true, List.length_cons, List.range']
    rw [ih (i + 1) (fun x hx => h x (List.mem_cons_of_mem _ hx))]

theorem posIn_range' (n : Nat) : ∀ (i v : Nat),
    posIn (List.range' i n) v = if i ≤ v ∧ v < i + n then some (v - i) else none := by
  induction n with
  | zero =>
    intro i v
    rw [show List.range' i 0 = [] from rfl, posIn, if_neg (by omega)]
  | succ n ih =>
    intro i v
    rw [List.range', posIn]
    by_cases hv : i = v
    · subst hv
      rw [if_pos rfl, if_pos (by omega : i ≤ i ∧ i < i + (n + 1))]
      rw [Nat.sub_self]
    · rw [if_neg hv, ih (i + 1) v]
      by_cases h2 : i + 1 ≤ v ∧ v < i + 1 + n
      · rw [if_pos h2, if_pos (by omega)]
        show some (v - (i + 1) + 1) = some (v - i)
        congr 1
        omega
      · rw [if_neg h2, if_neg (by omega)]
        rfl

theorem renum_range (n v : Nat) : renum (List.range' 0 n) v = v := by
  rw [renum, posIn_range' n 0 v]
  by_cases h : v < n
  · rw [if_pos ⟨Nat.zero_le v, by omega⟩]
    simp
  · rw [if_neg (by omega)]

theorem getD_true_range (n : Nat) : ∀ (i v : Nat),
    ((List.range' i n).map (fun k => ((true : Bool), k))).getD v (true, i + v) =
      (true, i + v) := by
  induction n with
  | zero => intro i v; simp [List.range']
  | succ n ih =>
    intro i v
    rw [List.range']
    cases v with
    | zero => simp
    | succ v =>
      simp only [List.map_cons, List.getD_cons_succ]
      have := ih (i + 1) v
      rw [show i + 1 + v = i + (v + 1) by omega] at this
      exact this

theorem repOf_true_range (n v : Nat) :
    repOf ((List.range' 0 n).map (fun k => ((true : Bool), k))) v = v := by
  rw [repOf]
  have := getD_true_range n 0 v
  rw [Nat.zero_add] at this
  rw [this]

theorem usedFlags_length (refs : List (List Nat)) : ∀ (n i : Nat),
    (usedFlags refs i n).length = n := by
  intro n
  induction n with
  | zero => intro i; rfl
  | succ n ih => intro i; rw [usedFlags]; simp [ih]

theorem map_map_id (f : Nat → Nat) (h : ∀ v, f v = v) :
    ∀ refs : List (List Nat), refs.map (List.map f) = refs := by
  intro refs
  induction refs with
  | nil => rfl
  | cons l refs ih =>
    rw [List.map_cons, ih]
    congr 1
    induction l with
    | nil => rfl
    | cons v l ihl => rw [List.map_cons, ihl, h v]

theorem trueRange_all (i n : Nat) :
    ∀ x ∈ (List.range' i n).map (fun k => ((true : Bool), k)), x.1 = true := by
  intro x hx
  obtain ⟨k, _, hk⟩ := List.mem_map.mp hx
  rw [← hk]

theorem delete_unused_fix {V : Type} (verts : List V) (refs : List (List Nat))
    (h : (delete_unused_vertices verts refs).1.length = verts.length) :
    (delete_unused_vertices verts refs).1 = verts ∧
      ∀ v, (delete_unused_vertices verts refs).2 v = v := by
  have hlen : (usedFlags refs 0 verts.length).length = verts.length :=
    usedFlags_length refs verts.length 0
  have h2 : (keepByFlags verts (usedFlags refs 0 verts.length)).length =
      verts.length := h
  have hall := keepByFlags_len_all_true verts (usedFlags refs 0 verts.length)
    hlen h2
  constructor
  · show keepByFlags verts (usedFlags refs 0 verts.length) = verts
    exact keepByFlags_all_true verts _ hlen hall
  · intro v
    show renum (posTrue (usedFlags refs 0 verts.length) 0) v = v
    rw [posTrue_all_true _ 0 hall, hlen]
    exact renum_range verts.length v

theorem ddAssign_length {V : Type} (close : V → V → Bool) (considered : List Nat)
    (verts : List V) : (ddAssign close considered verts).length = verts.length :=
  mergeAssign_length close (ddParticip considered) verts [] 0

theorem delete_unused_length_le {V : Type} (verts : List V)
    (refs : List (List Nat)) :
    (delete_unused_vertices verts refs).1.length ≤ verts.length := by
  rw [delete_unused_vertices]
  exact keepByFlags_length_le _ _

theorem delete_duplicated_length_le {V : Type} (close : V → V → Bool)
    (considered : List Nat) (verts : List V) (refs : List (List Nat)) :
    (delete_duplicated_vertices close considered verts refs).1.length ≤
      verts.length := by
  rw [delete_duplicated_vertices]
  calc (delete_unused_vertices (ddMergedVerts close considered verts)
          (ddMergedRefs close considered verts refs)).1.length
      ≤ (ddMergedVerts close considered verts).length :=
        delete_unused_length_le _ _
    _ ≤ verts.length := keepByFlags_length_le _ _

theorem delete_duplicated_fix {V : Type} (close : V → V → Bool)
    (considered : List Nat) (verts : List V) (refs : List (List Nat))
    (h : (delete_duplicated_vertices close considered verts refs).1.length =
      verts.length) :
    delete_duplicated_vertices close considered verts refs = (verts, refs) := by
  rw [delete_duplicated_vertices] at h ⊢
  simp only at h ⊢
  have halen := ddAssign_length close considered verts
  have hle2 := delete_unused_length_le (ddMergedVerts close considered verts)
    (ddMergedRefs close considered verts refs)
  have hle1 : (ddMergedVerts close considered verts).length ≤ verts.length :=
    keepByFlags_length_le _ _
  have hMlen : (ddMergedVerts close considered verts).length = verts.length := by
    omega
  have hall : ∀ x ∈ ddAssign close considered verts, x.1 = true := by
    apply keepByFlags_len_all_true verts (ddAssign close considered verts) halen
    rw [← ddMergedVerts] at *
    exact hMlen
  have haform : ddAssign close considered verts =
      (List.range' 0 verts.length).map (fun k => ((true : Bool), k)) := by
    rw [ddAssign] at hall ⊢
    exact mergeAssign_all_true close (ddParticip considered) verts [] 0 hall
  have hM : ddMergedVerts close considered verts = verts := by
    rw [ddMergedVerts]
    exact keepByFlags_all_true verts _ halen hall
  have hrw : ∀ v,
      renum (posTrue (ddAssign close considered verts) 0)
        (repOf (ddAssign close considered verts) v) = v := by
    intro v
    rw [posTrue_all_true _ 0 hall, halen, haform]
    rw [repOf_true_range verts.length v]
    exact renum_range verts.length v
  have hR : ddMergedRefs close considered verts refs = refs := by
    rw [ddMergedRefs]
    exact map_map_id _ hrw refs
  have hsweeplen : (delete_unused_vertices (ddMergedVerts close considered verts)
      (ddMergedRefs close considered verts refs)).1.length =
      (ddMergedVerts close considered verts).length := by
    omega
  obtain ⟨hsv, hsr⟩ := delete_unused_fix (ddMergedVerts close considered verts)
    (ddMergedRefs close considered verts refs) hsweeplen
  rw [hsv, map_map_id _ hsr, hM, hR]

/-- C8: the duplicate-removal entry point iterates
`delete_duplicated_vertices` until the vertex count stabilizes, and its
result is a fixed point: one further merge pass with the same closeness
test changes neither the vertex list nor the connectivity. -/
theorem merge_loop_idempotent {V : Type} (close : V → V → Bool)
    (verts : List V) (refs : List (List Nat)) :
    ddVerts close (mergeLoop close verts refs).1 (mergeLoop close verts refs).2 =
      (mergeLoop close verts refs).1 ∧
    ddRefs close (mergeLoop close verts refs).1 (mergeLoop close verts refs).2 =
      (mergeLoop close verts refs).2 := by
  have hfix : ∀ (vs : List V) (rs : List (List Nat)),
      (ddVerts close vs rs).length = vs.length →
      ddVerts close vs rs = vs ∧ ddRefs close vs rs = rs := by
    intro vs rs hlen
    rw [ddVerts] at hlen
    have := delete_duplicated_fix close [] vs rs hlen
    constructor
    · rw [ddVerts, this]
    · rw [ddRefs, this]
  have hnil : ∀ rs : List (List Nat),
      ddVerts close ([] : List V) rs = [] ∧ ddRefs close ([] : List V) rs = rs := by
    intro rs
    apply hfix
    have := delete_duplicated_length_le close [] ([] : List V) rs
    rw [ddVerts]
    simp only [List.length_nil] at this ⊢
    omega
  have hgo : ∀ (fuel : Nat) (vs : List V) (rs : List (List Nat)),
      vs.length ≤ fuel →
      ddVerts close (mergeLoopGo close fuel (vs, rs)).1
          (mergeLoopGo close fuel (vs, rs)).2 =
        (mergeLoopGo close fuel (vs, rs)).1 ∧
      ddRefs close (mergeLoopGo close fuel (vs, rs)).1
          (mergeLoopGo close fuel (vs, rs)).2 =
        (mergeLoopGo close fuel (vs, rs)).2 := by
    intro fuel
    induction fuel with
    | zero =>
      intro vs rs hle
      have : vs = [] := List.length_eq_zero.mp (Nat.le_zero.mp hle)
      subst this
      rw [mergeLoopGo]
      exact hnil rs
    | succ fuel ih =>
      intro vs rs hle
      simp only [mergeLoopGo]
      by_cases heq : (ddVerts close vs rs).length = vs.length
      · rw [if_pos heq]
        obtain ⟨h1, h2⟩ := hfix vs rs heq
        refine ⟨?_, ?_⟩
        · show ddVerts close (ddVerts close vs rs) (ddRefs close vs rs) =
            ddVerts close vs rs
          rw [h1, h2]
          exact h1
        · show ddRefs close (ddVerts close vs rs) (ddRefs close vs rs) =
            ddRefs close vs rs
          rw [h1, h2]
          exact h2
      · rw [if_neg heq]
        apply ih
        have hlt : (ddVerts close vs rs).length ≤ vs.length := by
          rw [ddVerts]
          exact delete_duplicated_length_le close [] vs rs
        omega
  rw [mergeLoop]
  by_cases hempty : verts.isEmpty
  · rw [if_pos hempty]
    have : verts = [] := List.isEmpty_iff.mp hempty
    subst this
    exact hnil refs
  · rw [if_neg hempty]
    exact hgo verts.length verts refs (Nat.le_refl _)

/-!
Step lemmas: processing one entity record of the VTK `CELLS` section.
-/

theorem vtk3_step_hex (n : Nat) (vs : List Nat) (hlen : vs.length = 8)
    (hsm : ∀ v ∈ vs, v < 4294967296) (rest : List Tok)
    (cells : List Cell) (quads lines : List SubEnt) :
    vtk_cells_3d (n + 1)
        { toks := ventToks (VEnt.cell8 vs) ++ rest, bad := false } cells quads lines =
      if quads.length = 0 ∧ lines.length = 0 then
        vtk_cells_3d n { toks := rest, bad := false }
          (cells ++ [{ vertices := vs, material_id := 0,
                       manifold_id := flat_manifold_id }]) quads lines
      else Except.error GErr.notImplemented := by
  simp only [ventToks, List.cons_append]
  rw [vtk_cells_3d]
  rw [rdNat_nat_cons 8 (by decide)]
  simp only [rdNats_natToks_n vs 8 hlen hsm rest]
  norm_num

theorem vtk3_step_quad (n : Nat) (vs : List Nat) (hlen : vs.length = 4)
    (hsm : ∀ v ∈ vs, v < 4294967296) (rest : List Tok)
    (cells : List Cell) (quads lines : List SubEnt) :
    vtk_cells_3d (n + 1)
        { toks := ventToks (VEnt.quad4 vs) ++ rest, bad := false } cells quads lines =
      if lines.length = 0 then
        vtk_cells_3d n { toks := rest, bad := false } cells
          (quads ++ [{ vertices := vs, boundary_id := 0,
                       manifold_id := flat_manifold_id }]) lines
      else Except.error GErr.notImplemented := by
  simp only [ventToks, List.cons_append]
  rw [vtk_cells_3d]
  rw [rdNat_nat_cons 4 (by decide)]
  simp only [rdNats_natToks_n vs 4 hlen hsm rest]
  norm_num

theorem vtk3_step_line (n : Nat) (vs : List Nat) (hlen : vs.length = 2)
    (hsm : ∀ v ∈ vs, v < 4294967296) (rest : List Tok)
    (cells : List Cell) (quads lines : List SubEnt) :
    vtk_cells_3d (n + 1)
        { toks := ventToks (VEnt.line2 vs) ++ rest, bad := false } cells quads lines =
      vtk_cells_3d n { toks := rest, bad := false } cells quads
        (lines ++ [{ vertices := vs, boundary_id := 0,
                     manifold_id := flat_manifold_id }]) := by
  simp only [ventToks, List.cons_append]
  rw [vtk_cells_3d]
  rw [rdNat_nat_cons 2 (by decide)]
  simp only [rdNats_natToks_n vs 2 hlen hsm rest]
  norm_num

theorem vtk2_step_quad (n : Nat) (vs : List Nat) (hlen : vs.length = 4)
    (hsm : ∀ v ∈ vs, v < 4294967296) (rest : List Tok)
    (cells : List Cell) (lines : List SubEnt) :
    vtk_cells_2d (n + 1)
        { toks := ventToks (VEnt.quad4 vs) ++ rest, bad := false } cells lines =
      if lines.length = 0 then
        vtk_cells_2d n { toks := rest, bad := false }
          (cells ++ [{ vertices := vs, material_id := 0,
                       manifold_id := flat_manifold_id }]) lines
      else Except.error GErr.notImplemented := by
  simp only [ventToks, List.cons_append]
  rw [vtk_cells_2d]
  rw [rdNat_nat_cons 4 (by decide)]
  simp only [rdNats_natToks_n vs 4 hlen hsm rest]
  norm_num

theorem vtk2_step_line (n : Nat) (vs : List Nat) (hlen : vs.length = 2)
    (hsm : ∀ v ∈ vs, v < 4294967296) (rest : List Tok)
    (cells : List Cell) (lines : List SubEnt) :
    vtk_cells_2d (n + 1)
        { toks := ventToks (VEnt.line2 vs) ++ rest, bad := false } cells lines =
      vtk_cells_2d n { toks := rest, bad := false } cells
        (lines ++ [{ vertices := vs, boundary_id := 0,
                     manifold_id := flat_manifold_id }]) := by
  simp only [ventToks, List.cons_append]
  rw [vtk_cells_2d]
  rw [rdNat_nat_cons 2 (by decide)]
  simp only [rdNats_natToks_n vs 2 hlen hsm rest]
  norm_num

theorem ventsToks_cons (e : VEnt) (es : List VEnt) :
    ventsToks (e :: es) = ventToks e ++ ventsToks es := by
  simp [ventsToks]

theorem ventWf_cell8 (vs : List Nat) (h : ventWf (VEnt.cell8 vs) = true) :
    vs.length = 8 ∧ ∀ v ∈ vs, v < 4294967296 := by
  simp [ventWf] at h
  exact h

theorem ventWf_quad4 (vs : List Nat) (h : ventWf (VEnt.quad4 vs) = true) :
    vs.length = 4 ∧ ∀ v ∈ vs, v < 4294967296 := by
  simp [ventWf] at h
  exact h

theorem ventWf_line2 (vs : List Nat) (h : ventWf (VEnt.line2 vs) = true) :
    vs.length = 2 ∧ ∀ v ∈ vs, v < 4294967296 := by
  simp [ventWf] at h
  exact h

theorem vtk3_error_hex_in (es : List VEnt) :
    ∀ (cells : List Cell) (quads lines : List SubEnt) (rest : List Tok),
      (∀ e ∈ es, ventWf e = true) → (quads ≠ [] ∨ lines ≠ []) →
      (∃ e ∈ es, ventIsHex e = true) →
      vtk_cells_3d es.length { toks := ventsToks es ++ rest, bad := false }
        cells quads lines = Except.error GErr.notImplemented := by
  induction es with
  | nil =>
    intro _ _ _ _ _ _ hex
    simp at hex
  | cons e es ih =>
    intro cells quads lines rest hwf hne hex
    have hwfe := hwf e (List.mem_cons_self _ _)
    have hwfr := fun x hx => hwf x (List.mem_cons_of_mem e hx)
    rw [ventsToks_cons, List.append_assoc]
    simp only [List.length_cons]
    cases e with
    | cell8 vs =>
      obtain ⟨hl, hs⟩ := ventWf_cell8 vs hwfe
      rw [vtk3_step_hex es.length vs hl hs]
      rw [if_neg]
      intro ⟨hq, hlz⟩
      cases hne with
      | inl h => exact h (List.length_eq_zero.mp hq)
      | inr h => exact h (List.length_eq_zero.mp hlz)
    | quad4 vs =>
      obtain ⟨hl, hs⟩ := ventWf_quad4 vs hwfe
      rw [vtk3_step_quad es.length vs hl hs]
      by_cases hl0 : lines.length = 0
      · rw [if_pos hl0]
        apply ih _ _ _ _ hwfr (Or.inl (by simp))
        obtain ⟨x, hx, hhex⟩ := hex
        cases List.mem_cons.mp hx with
        | inl h => rw [h] at hhex; simp [ventIsHex] at hhex
        | inr h => exact ⟨x, h, hhex⟩
      · rw [if_neg hl0]
    | line2 vs =>
      obtain ⟨hl, hs⟩ := ventWf_line2 vs hwfe
      rw [vtk3_step_line es.length vs hl hs]
      apply ih _ _ _ _ hwfr (Or.inr (by simp))
      obtain ⟨x, hx, hhex⟩ := hex
      cases List.mem_cons.mp hx with
      | inl h => rw [h] at hhex; simp [ventIsHex] at hhex
      | inr h => exact ⟨x, h, hhex⟩

theorem vtk3_error_topdim_in (es : List VEnt) :
    ∀ (cells : List Cell) (quads lines : List SubEnt) (rest : List Tok),
      (∀ e ∈ es, ventWf e = true) → lines ≠ [] →
      (∃ e ∈ es, ventIsHex e = true ∨ ventIsQuad e = true) →
      vtk_cells_3d es.length { toks := ventsToks es ++ rest, bad := false }
        cells quads lines = Except.error GErr.notImplemented := by
  induction es with
  | nil =>
    intro _ _ _ _ _ _ hex
    simp at hex
  | cons e es ih =>
    intro cells quads lines rest hwf hne hex
    have hwfe := hwf e (List.mem_cons_self _ _)
    have hwfr := fun x hx => hwf x (List.mem_cons_of_mem e hx)
    have hlz : ¬ lines.length = 0 := fun h => hne (List.length_eq_zero.mp h)
    rw [ventsToks_cons, List.append_assoc]
    simp only [List.length_cons]
    cases e with
    | cell8 vs =>
      obtain ⟨hl, hs⟩ := ventWf_cell8 vs hwfe
      rw [vtk3_step_hex es.length vs hl hs]
      rw [if_neg]
      intro ⟨_, h2⟩
      exact hlz h2
    | quad4 vs =>
      obtain ⟨hl, hs⟩ := ventWf_quad4 vs hwfe
      rw [vtk3_step_quad es.length vs hl hs]
      rw [if_neg hlz]
    | line2 vs =>
      obtain ⟨hl, hs⟩ := ventWf_line2 vs hwfe
      rw [vtk3_step_line es.length vs hl hs]
      apply ih _ _ _ _ hwfr (by simp)
      obtain ⟨x, hx, hhex⟩ := hex
      cases List.mem_cons.mp hx with
      | inl h => rw [h] at hhex; simp [ventIsHex, ventIsQuad] at hhex
      | inr h => exact ⟨x, h, hhex⟩

theorem vtk2_error_quad_in (es : List VEnt) :
    ∀ (cells : List Cell) (lines : List SubEnt) (rest : List Tok),
      (∀ e ∈ es, ventWf e = true) → (∀ e ∈ es, ventIsHex e = false) →
      lines ≠ [] → (∃ e ∈ es, ventIsQuad e = true) →
      vtk_cells_2d es.length { toks := ventsToks es ++ rest, bad := false }
        cells lines = Except.error GErr.notImplemented := by
  induction es with
  | nil =>
    intro _ _ _ _ _ _ hex
    simp at hex
  | cons e es ih =>
    intro cells lines rest hwf hnh hne hex
    have hwfe := hwf e (List.mem_cons_self _ _)
    have hwfr := fun x hx => hwf x (List.mem_cons_of_mem e hx)
    have hnhr := fun x hx => hnh x (List.mem_cons_of_mem e hx)
    have hlz : ¬ lines.length = 0 := fun h => hne (List.length_eq_zero.mp h)
    rw [ventsToks_cons, List.append_assoc]
    simp only [List.length_cons]
    cases e with
    | cell8 vs =>
      have := hnh (VEnt.cell8 vs) (List.mem_cons_self _ _)
      simp [ventIsHex] at this
    | quad4 vs =>
      obtain ⟨hl, hs⟩ := ventWf_quad4 vs hwfe
      rw [vtk2_step_quad es.length vs hl hs]
      rw [if_neg hlz]
    | line2 vs =>
      obtain ⟨hl, hs⟩ := ventWf_line2 vs hwfe
      rw [vtk2_step_line es.length vs hl hs]
      apply ih _ _ _ hwfr hnhr (by simp)
      obtain ⟨x, hx, hq⟩ := hex
      cases List.mem_cons.mp hx with
      | inl h => rw [h] at hq; simp [ventIsQuad] at hq
      | inr h => exact ⟨x, h, hq⟩

theorem vtk3_aux_hex_after_sub (sub hx : VEnt) (es2 es3 : List VEnt)
    (hsub : ventIsQuad sub = true ∨ ventIsLine sub = true)
    (hhx : ventIsHex hx = true) :
    ∀ (es1 : List VEnt) (cells : List Cell) (quads lines : List SubEnt)
      (rest : List Tok),
      (∀ e ∈ es1 ++ sub :: (es2 ++ hx :: es3), ventWf e = true) →
      vtk_cells_3d (es1 ++ sub :: (es2 ++ hx :: es3)).length
        { toks := ventsToks (es1 ++ sub :: (es2 ++ hx :: es3)) ++ rest, bad := false }
        cells quads lines = Except.error GErr.notImplemented := by
  intro es1
  induction es1 with
  | nil =>
    intro cells quads lines rest hwf
    simp only [List.nil_append] at hwf ⊢
    have hwfs := hwf sub (List.mem_cons_self _ _)
    have hwfr := fun x hx2 => hwf x (List.mem_cons_of_mem sub hx2)
    have hhexin : ∃ e ∈ es2 ++ hx :: es3, ventIsHex e = true :=
      ⟨hx, List.mem_append_right es2 (List.mem_cons_self _ _), hhx⟩
    rw [ventsToks_cons, List.append_assoc]
    simp only [List.length_cons]
    cases sub with
    | cell8 vs => simp [ventIsQuad, ventIsLine] at hsub
    | quad4 vs =>
      obtain ⟨hl, hs⟩ := ventWf_quad4 vs hwfs
      rw [vtk3_step_quad _ vs hl hs]
      by_cases hl0 : lines.length = 0
      · rw [if_pos hl0]
        exact vtk3_error_hex_in _ _ _ _ _ hwfr (Or.inl (by simp)) hhexin
      · rw [if_neg hl0]
    | line2 vs =>
      obtain ⟨hl, hs⟩ := ventWf_line2 vs hwfs
      rw [vtk3_step_line _ vs hl hs]
      exact vtk3_error_hex_in _ _ _ _ _ hwfr (Or.inr (by simp)) hhexin
  | cons e es1 ih =>
    intro cells quads lines rest hwf
    have hwfe := hwf e (List.mem_cons_self _ _)
    have hwfr := fun x hx2 => hwf x (List.mem_cons_of_mem e hx2)
    rw [List.cons_append, ventsToks_cons, List.append_assoc]
    simp only [List.length_cons]
    cases e with
    | cell8 vs =>
      obtain ⟨hl, hs⟩ := ventWf_cell8 vs hwfe
      rw [vtk3_step_hex _ vs hl hs]
      by_cases hc : quads.length = 0 ∧ lines.length = 0
      · rw [if_pos hc]
        exact ih _ _ _ _ hwfr
      · rw [if_neg hc]
    | quad4 vs =>
      obtain ⟨hl, hs⟩ := ventWf_quad4 vs hwfe
      rw [vtk3_step_quad _ vs hl hs]
      by_cases hl0 : lines.length = 0
      · rw [if_pos hl0]
        exact ih _ _ _ _ hwfr
      · rw [if_neg hl0]
    | line2 vs =>
      obtain ⟨hl, hs⟩ := ventWf_line2 vs hwfe
      rw [vtk3_step_line _ vs hl hs]
      exact ih _ _ _ _ hwfr

theorem vtk3_aux_quad_after_line (sub q : VEnt) (es2 es3 : List VEnt)
    (hsub : ventIsLine sub = true) (hq : ventIsQuad q = true) :
    ∀ (es1 : List VEnt) (cells : List Cell) (quads lines : List SubEnt)
      (rest : List Tok),
      (∀ e ∈ es1 ++ sub :: (es2 ++ q :: es3), ventWf e = true) →
      vtk_cells_3d (es1 ++ sub :: (es2 ++ q :: es3)).length
        { toks := ventsToks (es1 ++ sub :: (es2 ++ q :: es3)) ++ rest, bad := false }
        cells quads lines = Except.error GErr.notImplemented := by
  intro es1
  induction es1 with
  | nil =>
    intro cells quads lines rest hwf
    simp only [List.nil_append] at hwf ⊢
    have hwfs := hwf sub (List.mem_cons_self _ _)
    have hwfr := fun x hx2 => hwf x (List.mem_cons_of_mem sub hx2)
    have hqin : ∃ e ∈ es2 ++ q :: es3, ventIsHex e = true ∨ ventIsQuad e = true :=
      ⟨q, List.mem_append_right es2 (List.mem_cons_self _ _), Or.inr hq⟩
    rw [ventsToks_cons, List.append_assoc]
    simp only [List.length_cons]
    cases sub with
    | cell8 vs => simp [ventIsLine] at hsub
    | quad4 vs => simp [ventIsLine] at hsub
    | line2 vs =>
      obtain ⟨hl, hs⟩ := ventWf_line2 vs hwfs
      rw [vtk3_step_line _ vs hl hs]
      exact vtk3_error_topdim_in _ _ _ _ _ hwfr (by simp) hqin
  | cons e es1 ih =>
    intro cells quads lines rest hwf
    have hwfe := hwf e (List.mem_cons_self _ _)
    have hwfr := fun x hx2 => hwf x (List.mem_cons_of_mem e hx2)
    rw [List.cons_append, ventsToks_cons, List.append_assoc]
    simp only [List.length_cons]
    cases e with
    | cell8 vs =>
      obtain ⟨hl, hs⟩ := ventWf_cell8 vs hwfe
      rw [vtk3_step_hex _ vs hl hs]
      by_cases hc : quads.length = 0 ∧ lines.length = 0
      · rw [if_pos hc]
        exact ih _ _ _ _ hwfr
      · rw [if_neg hc]
    | quad4 vs =>
      obtain ⟨hl, hs⟩ := ventWf_quad4 vs hwfe
      rw [vtk3_step_quad _ vs hl hs]
      by_cases hl0 : lines.length = 0
      · rw [if_pos hl0]
        exact ih _ _ _ _ hwfr
      · rw [if_neg hl0]
    | line2 vs =>
      obtain ⟨hl, hs⟩ := ventWf_line2 vs hwfe
      rw [vtk3_step_line _ vs hl hs]
      exact ih _ _ _ _ hwfr

theorem vtk2_aux_quad_after_line (sub q : VEnt) (es2 es3 : List VEnt)
    (hsub : ventIsLine sub = true) (hq : ventIsQuad q = true) :
    ∀ (es1 : List VEnt) (cells : List Cell) (lines : List SubEnt)
      (rest : List Tok),
      (∀ e ∈ es1 ++ sub :: (es2 ++ q :: es3), ventWf e = true) →
      (∀ e ∈ es1 ++ sub :: (es2 ++ q :: es3), ventIsHex e = false) →
      vtk_cells_2d (es1 ++ sub :: (es2 ++ q :: es3)).length
        { toks := ventsToks (es1 ++ sub :: (es2 ++ q :: es3)) ++ rest, bad := false }
        cells lines = Except.error GErr.notImplemented := by
  intro es1
  induction es1 with
  | nil =>
    intro cells lines rest hwf hnh
    simp only [List.nil_append] at hwf hnh ⊢
    have hwfs := hwf sub (List.mem_cons_self _ _)
    have hwfr := fun x hx2 => hwf x (List.mem_cons_of_mem sub hx2)
    have hnhr := fun x hx2 => hnh x (List.mem_cons_of_mem sub hx2)
    have hqin : ∃ e ∈ es2 ++ q :: es3, ventIsQuad e = true :=
      ⟨q, List.mem_append_right es2 (List.mem_cons_self _ _), hq⟩
    rw [ventsToks_cons, List.append_assoc]
    simp only [List.length_cons]
    cases sub with
    | cell8 vs => simp [ventIsLine] at hsub
    | quad4 vs => simp [ventIsLine] at hsub
    | line2 vs =>
      obtain ⟨hl, hs⟩ := ventWf_line2 vs hwfs
      rw [vtk2_step_line _ vs hl hs]
      exact vtk2_error_quad_in _ _ _ _ hwfr hnhr (by simp) hqin
  | cons e es1 ih =>
    intro cells lines rest hwf hnh
    have hwfe := hwf e (List.mem_cons_self _ _)
    have hwfr := fun x hx2 => hwf x (List.mem_cons_of_mem e hx2)
    have hnhr := fun x hx2 => hnh x (List.mem_cons_of_mem e hx2)
    rw [List.cons_append, ventsToks_cons, List.append_assoc]
    simp only [List.length_cons]
    cases e with
    | cell8 vs =>
      have := hnh (VEnt.cell8 vs) (List.mem_cons_self _ _)
      simp [ventIsHex] at this
    | quad4 vs =>
      obtain ⟨hl, hs⟩ := ventWf_quad4 vs hwfe
      rw [vtk2_step_quad _ vs hl hs]
      by_cases hl0 : lines.length = 0
      · rw [if_pos hl0]
        exact ih _ _ _ hwfr hnhr
      · rw [if_neg hl0]
    | line2 vs =>
      obtain ⟨hl, hs⟩ := ventWf_line2 vs hwfe
      rw [vtk2_step_line _ vs hl hs]
      exact ih _ _ _ hwfr hnhr

/-- C6: in the VTK `CELLS` loop, a top-dimension cell record appearing
after a lower-dimension record already read is rejected with the
`ExcNotImplemented` hard failure: in 3d a hexahedron after any quad or
line, in 3d a quad after any line, and in 2d a quad cell after any line
(the cell loops start from the empty entity lists, as `read_vtk` invokes
them). -/
theorem vtk_out_of_order_entity_rejected :
    (∀ (es1 es2 es3 : List VEnt) (sub hx : VEnt) (rest : List Tok),
      (∀ e ∈ es1 ++ sub :: (es2 ++ hx :: es3), ventWf e = true) →
      (ventIsQuad sub = true ∨ ventIsLine sub = true) →
      ventIsHex hx = true →
      vtk_cells_3d (es1 ++ sub :: (es2 ++ hx :: es3)).length
        { toks := ventsToks (es1 ++ sub :: (es2 ++ hx :: es3)) ++ rest,
          bad := false } [] [] [] = Except.error GErr.notImplemented) ∧
    (∀ (es1 es2 es3 : List VEnt) (sub q : VEnt) (rest : List Tok),
      (∀ e ∈ es1 ++ sub :: (es2 ++ q :: es3), ventWf e = true) →
      ventIsLine sub = true → ventIsQuad q = true →
      vtk_cells_3d (es1 ++ sub :: (es2 ++ q :: es3)).length
        { toks := ventsToks (es1 ++ sub :: (es2 ++ q :: es3)) ++ rest,
          bad := false } [] [] [] = Except.error GErr.notImplemented) ∧
    (∀ (es1 es2 es3 : List VEnt) (sub q : VEnt) (rest : List Tok),
      (∀ e ∈ es1 ++ sub :: (es2 ++ q :: es3), ventWf e = true) →
      (∀ e ∈ es1 ++ sub :: (es2 ++ q :: es3), ventIsHex e = false) →
      ventIsLine sub = true → ventIsQuad q = true →
      vtk_cells_2d (es1 ++ sub :: (es2 ++ q :: es3)).length
        { toks := ventsToks (es1 ++ sub :: (es2 ++ q :: es3)) ++ rest,
          bad := false } [] [] = Except.error GErr.notImplemented) := by
  refine ⟨?_, ?_, ?_⟩
  · intro es1 es2 es3 sub hx rest hwf hsub hhx
    exact vtk3_aux_hex_after_sub sub hx es2 es3 hsub hhx es1 [] [] [] rest hwf
  · intro es1 es2 es3 sub q rest hwf hsub hq
    exact vtk3_aux_quad_after_line sub q es2 es3 hsub hq es1 [] [] [] rest hwf
  · intro es1 es2 es3 sub q rest hwf hnh hsub hq
    exact vtk2_aux_quad_after_line sub q es2 es3 hsub hq es1 [] [] rest hwf hnh

/-- Closed instances of the VTK ordering theorem: a line followed by a
hexahedron in 3d, a line followed by a quad in 3d, and a line followed by
a quad cell in 2d, each rejected with the `ExcNotImplemented` failure. -/
theorem vtk_out_of_order_entity_rejected_witness :
    vtk_cells_3d ([] ++ VEnt.line2 [0, 1] :: ([] ++
        VEnt.cell8 [0, 1, 2, 3, 4, 5, 6, 7] :: [])).length
      { toks := ventsToks ([] ++ VEnt.line2 [0, 1] :: ([] ++
          VEnt.cell8 [0, 1, 2, 3, 4, 5, 6, 7] :: [])) ++ [], bad := false }
      [] [] [] = Except.error GErr.notImplemented ∧
    vtk_cells_3d ([] ++ VEnt.line2 [0, 1] :: ([] ++
        VEnt.quad4 [0, 1, 2, 3] :: [])).length
      { toks := ventsToks ([] ++ VEnt.line2 [0, 1] :: ([] ++
          VEnt.quad4 [0, 1, 2, 3] :: [])) ++ [], bad := false }
      [] [] [] = Except.error GErr.notImplemented ∧
    vtk_cells_2d ([] ++ VEnt.line2 [0, 1] :: ([] ++
        VEnt.quad4 [0, 1, 2, 3] :: [])).length
      { toks := ventsToks ([] ++ VEnt.line2 [0, 1] :: ([] ++
          VEnt.quad4 [0, 1, 2, 3] :: [])) ++ [], bad := false }
      [] [] = Except.error GErr.notImplemented := by
  refine ⟨?_, ?_, ?_⟩
  · exact vtk_out_of_order_entity_rejected.1 [] [] []
      (VEnt.line2 [0, 1]) (VEnt.cell8 [0, 1, 2, 3, 4, 5, 6, 7]) []
      (by decide) (Or.inr (by decide)) (by decide)
  · exact vtk_out_of_order_entity_rejected.2.1 [] [] []
      (VEnt.line2 [0, 1]) (VEnt.quad4 [0, 1, 2, 3]) []
      (by decide) (by decide) (by decide)
  · exact vtk_out_of_order_entity_rejected.2.2 [] [] []
      (VEnt.line2 [0, 1]) (VEnt.quad4 [0, 1, 2, 3]) []
      (by decide) (by decide) (by decide) (by decide)

/-!
Count invariants of the entity loops: each iteration appends exactly one
entity (or, for Gmsh, marks one point element).
-/

theorem vtk_cells_3d_count : ∀ (count : Nat) (s : S) (cells : List Cell)
    (quads lines : List SubEnt) (r : List Cell × List SubEnt × List SubEnt × S),
    vtk_cells_3d count s cells quads lines = Except.ok r →
    r.1.length + r.2.1.length + r.2.2.1.length =
      cells.length + quads.length + lines.length + count := by
  intro count
  induction count with
  | zero =>
    intro s cells quads lines r h
    rw [vtk_cells_3d] at h
    cases h
    dsimp only
    omega
  | succ count ih =>
    intro s cells quads lines r h
    rw [vtk_cells_3d] at h
    split at h
    split at h
    · split at h
      · split at h
        have := ih _ _ _ _ _ h
        simp only [List.length_append, List.length_cons, List.length_nil] at this ⊢
        omega
      · simp at h
    · split at h
      · split at h
        · split at h
          have := ih _ _ _ _ _ h
          simp only [List.length_append, List.length_cons, List.length_nil] at this ⊢
          omega
        · simp at h
      · split at h
        · split at h
          have := ih _ _ _ _ _ h
          simp only [List.length_append, List.length_cons, List.length_nil] at this ⊢
          omega
        · simp at h

theorem vtk_cells_2d_count : ∀ (count : Nat) (s : S) (cells : List Cell)
    (lines : List SubEnt) (r : List Cell × List SubEnt × S),
    vtk_cells_2d count s cells lines = Except.ok r →
    r.1.length + r.2.1.length = cells.length + lines.length + count := by
  intro count
  induction count with
  | zero =>
    intro s cells lines r h
    rw [vtk_cells_2d] at h
    cases h
    dsimp only
    omega
  | succ count ih =>
    intro s cells lines r h
    rw [vtk_cells_2d] at h
    split at h
    split at h
    · split at h
      · split at h
        have := ih _ _ _ _ h
        simp only [List.length_append, List.length_cons, List.length_nil] at this ⊢
        omega
      · simp at h
    · split at h
      · split at h
        have := ih _ _ _ _ h
        simp only [List.length_append, List.length_cons, List.length_nil] at this ⊢
        omega
      · simp at h

theorem vtk_cells_1d_count : ∀ (count : Nat) (s : S) (cells : List Cell)
    (r : List Cell × S),
    vtk_cells_1d count s cells = Except.ok r →
    r.1.length = cells.length + count := by
  intro count
  induction count with
  | zero =>
    intro s cells r h
    rw [vtk_cells_1d] at h
    cases h
    dsimp only
    omega
  | succ count ih =>
    intro s cells r h
    rw [vtk_cells_1d] at h
    split at h
    split at h
    · split at h
      have := ih _ _ _ h
      simp only [List.length_append, List.length_cons, List.length_nil] at this ⊢
      omega
    · simp at h

theorem ucd_cell_loop_count (dim : Nat) (flag : Bool) (vmap : List (Int × Nat)) :
    ∀ (n : Nat) (s : S) (cells : List Cell) (bl bq : List SubEnt)
      (r : List Cell × List SubEnt × List SubEnt × S),
      ucd_cell_loop dim flag vmap n s cells bl bq = Except.ok r →
      r.1.length + r.2.1.length + r.2.2.1.length =
        cells.length + bl.length + bq.length + n := by
  intro n
  induction n with
  | zero =>
    intro s cells bl bq r h
    rw [ucd_cell_loop] at h
    cases h
    dsimp only
    omega
  | succ n ih =>
    intro s cells bl bq r h
    rw [ucd_cell_loop] at h
    repeat' split at h
    all_goals try dsimp only at h
    all_goals first
      | (have hih := ih _ _ _ _ _ h
         simp only [List.length_append, List.length_cons, List.length_nil] at hih ⊢
         omega)
      | cases h

theorem msh_read_element_count (fmt dim : Nat) (vmap : List (Int × Nat))
    (blockMat : Nat) (blockType : Int) (st : MshState) (s : S)
    (r : MshState × S)
    (h : msh_read_element fmt dim vmap blockMat blockType st s = Except.ok r) :
    r.1.cells.length + r.1.blines.length + r.1.bquads.length + r.1.npoints =
      st.cells.length + st.blines.length + st.bquads.length + st.npoints + 1 := by
  rw [msh_read_element] at h
  repeat' split at h
  all_goals try dsimp only at h
  all_goals cases h
  all_goals try dsimp only
  all_goals try simp only [List.length_append, List.length_cons, List.length_nil]
  all_goals omega

theorem msh_elements_in_block_count (fmt dim : Nat) (vmap : List (Int × Nat))
    (blockMat : Nat) (blockType : Int) :
    ∀ (count : Nat) (st : MshState) (s : S) (r : MshState × S),
      msh_elements_in_block fmt dim vmap blockMat blockType count st s =
        Except.ok r →
      r.1.cells.length + r.1.blines.length + r.1.bquads.length + r.1.npoints =
        st.cells.length + st.blines.length + st.bquads.length + st.npoints +
          count := by
  intro count
  induction count with
  | zero =>
    intro st s r h
    rw [msh_elements_in_block] at h
    cases h
    dsimp only
    omega
  | succ count ih =>
    intro st s r h
    rw [msh_elements_in_block] at h
    split at h
    · cases h
    · split at h
      · cases h
      · rename_i st2 s2 heq
        have h1 := msh_read_element_count fmt dim vmap blockMat blockType st s
          _ heq
        have h2 := ih _ _ _ h
        dsimp only at h1
        omega

theorem msh_element_blocks_count (fmt dim : Nat) (vmap : List (Int × Nat))
    (tagMaps : List (List (Int × Int))) (declared : Nat) :
    ∀ (nb : Nat) (st : MshState) (gc : Nat) (s : S) (r : MshState × Nat × S),
      msh_element_blocks fmt dim vmap tagMaps declared nb st gc s =
        Except.ok r →
      r.1.cells.length + r.1.blines.length + r.1.bquads.length + r.1.npoints +
          gc =
        st.cells.length + st.blines.length + st.bquads.length + st.npoints +
          r.2.1 := by
  intro nb
  induction nb with
  | zero =>
    intro st gc s r h
    rw [msh_element_blocks] at h
    cases h
    try dsimp only
    try omega
  | succ nb ih =>
    intro st gc s r h
    rw [msh_element_blocks] at h
    split at h
    split at h
    · cases h
    · rename_i st2 s2 heq
      have h1 := msh_elements_in_block_count fmt dim vmap _ _ _ _ _ _ heq
      have h2 := ih _ _ _ _ h
      dsimp only at h1
      omega

theorem msh_element_blocks_one_lt40 (fmt dim : Nat) (vmap : List (Int × Nat))
    (tagMaps : List (List (Int × Int))) (declared : Nat) (hfmt : fmt < 40)
    (st : MshState) (gc : Nat) (s : S) (r : MshState × Nat × S)
    (h : msh_element_blocks fmt dim vmap tagMaps declared 1 st gc s =
      Except.ok r) :
    r.2.1 = gc + declared := by
  have h2 : msh_element_blocks fmt dim vmap tagMaps declared (0 + 1) st gc s =
      Except.ok r := h
  rw [msh_element_blocks] at h2
  rw [if_pos hfmt] at h2
  dsimp only at h2
  split at h2
  · cases h2
  · rename_i st2 s2 heq
    rw [msh_element_blocks] at h2
    cases h2
    rfl

theorem vtk_assign_cells_length (b : Bool) :
    ∀ (cs : List Cell) (s : S), (vtk_assign_cells b cs s).1.length = cs.length := by
  intro cs
  induction cs with
  | nil => intro s; rfl
  | cons c cs ih =>
    intro s
    rw [vtk_assign_cells]
    simp only [List.length_cons]
    rw [← ih (rdQ s).2]

theorem vtk_assign_subs_length (b : Bool) :
    ∀ (es : List SubEnt) (s : S), (vtk_assign_subs b es s).1.length = es.length := by
  intro es
  induction es with
  | nil => intro s; rfl
  | cons e es ih =>
    intro s
    rw [vtk_assign_subs]
    simp only [List.length_cons]
    rw [← ih (rdQ s).2]

theorem vtk_scalars_block_lengths (dim : Nat) (b : Bool) (cells : List Cell)
    (quads lines : List SubEnt) (s : S)
    (r : List Cell × List SubEnt × List SubEnt × S)
    (h : vtk_scalars_block dim b cells quads lines s = Except.ok r) :
    r.1.length = cells.length ∧ r.2.1.length = quads.length ∧
      r.2.2.1.length = lines.length := by
  rw [vtk_scalars_block] at h
  repeat' split at h
  all_goals cases h
  all_goals exact ⟨by simp [vtk_assign_cells_length],
    by simp [vtk_assign_cells_length, vtk_assign_subs_length],
    by simp [vtk_assign_cells_length, vtk_assign_subs_length]⟩

theorem vtk_scan_scalars_lengths (dim : Nat) : ∀ (fuel : Nat)
    (cells : List Cell) (quads lines : List SubEnt) (s : S)
    (r : List Cell × List SubEnt × List SubEnt × S),
    vtk_scan_scalars dim fuel cells quads lines s = Except.ok r →
    r.1.length = cells.length ∧ r.2.1.length = quads.length ∧
      r.2.2.1.length = lines.length := by
  intro fuel
  induction fuel with
  | zero =>
    intro cells quads lines s r h
    rw [vtk_scan_scalars] at h
    cases h
    exact ⟨rfl, rfl, rfl⟩
  | succ fuel ih =>
    intro cells quads lines s r h
    rw [vtk_scan_scalars] at h
    repeat' split at h
    all_goals first
      | (cases h; exact ⟨rfl, rfl, rfl⟩)
      | (exact ih _ _ _ _ _ h)
      | (rename_i cells2 quads2 lines2 s2 heq
         obtain ⟨e1, e2, e3⟩ := vtk_scalars_block_lengths _ _ _ _ _ _ _ heq
         obtain ⟨f1, f2, f3⟩ := ih _ _ _ _ _ h
         dsimp only at e1 e2 e3 f1 f2 f3
         exact ⟨by omega, by omega, by omega⟩)
      | cases h

theorem vtk_scan_celldata_lengths (dim declared : Nat) : ∀ (fuel : Nat)
    (cells : List Cell) (quads lines : List SubEnt) (s : S)
    (r : List Cell × List SubEnt × List SubEnt × S),
    vtk_scan_celldata dim declared fuel cells quads lines s = Except.ok r →
    r.1.length = cells.length ∧ r.2.1.length = quads.length ∧
      r.2.2.1.length = lines.length := by
  intro fuel
  induction fuel with
  | zero =>
    intro cells quads lines s r h
    rw [vtk_scan_celldata] at h
    cases h
    exact ⟨rfl, rfl, rfl⟩
  | succ fuel ih =>
    intro cells quads lines s r h
    rw [vtk_scan_celldata] at h
    split at h
    split at h
    · cases h
      exact ⟨rfl, rfl, rfl⟩
    · split at h
      · split at h
        split at h
        · cases h
        · split at h
          · cases h
          · rename_i cells1 quads1 lines1 s4 heq1
            split at h
            · cases h
            · rename_i cells2 quads2 lines2 s5 heq2
              obtain ⟨e1, e2, e3⟩ := vtk_scan_scalars_lengths dim _ _ _ _ _ _ heq1
              obtain ⟨g1, g2, g3⟩ := vtk_scan_scalars_lengths dim _ _ _ _ _ _ heq2
              obtain ⟨f1, f2, f3⟩ := ih _ _ _ _ _ h
              dsimp only at e1 e2 e3 g1 g2 g3
              exact ⟨by omega, by omega, by omega⟩
      · exact ih _ _ _ _ _ h

theorem msh_section_header_one (fmt : Nat) (hfmt : fmt < 40) (s : S) :
    (msh_section_header fmt s).1 = 1 := by
  rw [msh_section_header, if_neg (by omega), if_neg (by omega)]

theorem vtk_after_cells_count (dim declared : Nat) (verts : List (List ℚ))
    (cells : List Cell) (quads lines : List SubEnt) (s : S) (r : VtkResult)
    (h : vtk_after_cells dim declared verts cells quads lines s =
      Except.ok r) :
    r.cells.length = cells.length ∧ r.bquads.length = quads.length ∧
      r.blines.length = lines.length ∧ r.declared = declared := by
  simp only [vtk_after_cells] at h
  split at h
  · cases h
  split at h
  · cases h
  split at h
  · cases h
  · rename_i cellsF quadsF linesF sF heqScan
    cases h
    obtain ⟨e1, e2, e3⟩ := vtk_scan_celldata_lengths _ _ _ _ _ _ _ _ heqScan
    dsimp only at e1 e2 e3 ⊢
    exact ⟨e1, e2, e3, rfl⟩

/-- C2: the entity-count invariant, amended.  For a successful VTK parse
the cells plus boundary quads plus boundary lines equal the `CELLS n`
header count, and for a successful UCD parse they equal the declared cell
count.  For the Gmsh MSH element section, every element record — point
(type 15) elements included — accounts for exactly one slot of the global
element counter, so cells plus boundary objects plus point elements equal
that counter, which for pre-4.0 files equals the declared section count;
cells plus boundary objects alone fall short of the declared count by the
number of point elements. -/
theorem entity_count_matches_declared :
    (∀ (dim spacedim : Nat) (header : List String) (s : S) (r : VtkResult),
        read_vtk_core dim spacedim header s = Except.ok r →
        r.cells.length + r.bquads.length + r.blines.length = r.declared) ∧
    (∀ (dim spacedim : Nat) (flag : Bool) (s : S) (r : UcdResult),
        read_ucd_core dim spacedim flag s = Except.ok r →
        r.cells.length + r.blines.length + r.bquads.length =
          r.declaredCells) ∧
    (∀ (dim spacedim : Nat) (s : S) (r : MshPhase1),
        read_msh_phase1 dim spacedim s = Except.ok r →
        r.st.cells.length + r.st.blines.length + r.st.bquads.length +
            r.st.npoints = r.globalCell ∧
          (r.fmt < 40 → r.globalCell = r.declared)) := by
  refine ⟨?_, ?_, ?_⟩
  · intro dim spacedim header s r h
    simp only [read_vtk_core] at h
    split at h
    · cases h
    split at h
    · cases h
    split at h
    · cases h
    split at h
    · cases h
    split at h
    · cases h
    split at h
    · split at h
      · cases h
      · rename_i cells1 quads1 lines1 s7 heqLoop
        have hc := vtk_cells_3d_count _ _ _ _ _ _ heqLoop
        obtain ⟨e1, e2, e3, e4⟩ := vtk_after_cells_count _ _ _ _ _ _ _ _ h
        dsimp only at hc
        simp only [List.length_nil] at hc
        omega
    · split at h
      · split at h
        · cases h
        · rename_i cells1 lines1 s7 heqLoop
          have hc := vtk_cells_2d_count _ _ _ _ _ heqLoop
          obtain ⟨e1, e2, e3, e4⟩ := vtk_after_cells_count _ _ _ _ _ _ _ _ h
          dsimp only at hc
          simp only [List.length_nil] at hc e2
          omega
      · split at h
        · split at h
          · cases h
          · rename_i cells1 s7 heqLoop
            have hc := vtk_cells_1d_count _ _ _ _ heqLoop
            obtain ⟨e1, e2, e3, e4⟩ := vtk_after_cells_count _ _ _ _ _ _ _ _ h
            dsimp only at hc
            simp only [List.length_nil] at hc e2 e3
            omega
        · cases h
  · intro dim spacedim flag s r h
    simp only [read_ucd_core] at h
    split at h
    · cases h
    split at h
    · cases h
    split at h
    · cases h
    · rename_i verts1 vmap1 s6 heqV
      split at h
      · cases h
      · rename_i cells1 bl1 bq1 s7 heqC
        split at h
        · cases h
        cases h
        have hc := ucd_cell_loop_count _ _ _ _ _ _ _ _ _ heqC
        dsimp only at hc ⊢
        simp only [List.length_nil] at hc
        omega
  · intro dim spacedim s r h
    simp only [read_msh_phase1] at h
    split at h
    · cases h
    split at h
    · cases h
    · rename_i fmt tagMaps s2 heqDetect
      split at h
      · cases h
      split at h
      · cases h
      split at h
      · cases h
      · rename_i st1 gc1 s9 heqBlocks
        split at h
        · cases h
        split at h
        · cases h
        cases h
        refine ⟨?_, ?_⟩
        · have hb := msh_element_blocks_count _ _ _ _ _ _ _ _ _ _ heqBlocks
          dsimp only at hb ⊢
          simp only [List.length_nil] at hb
          omega
        · intro hlt
          dsimp only at hlt ⊢
          simp only [msh_section_header_one _ hlt] at heqBlocks ⊢
          have hone := msh_element_blocks_one_lt40 _ _ _ _ _ hlt _ _ _ _ heqBlocks
          dsimp only at hone
          omega

/-- C2 counterexample to the literal claim: a version-1 MSH file whose
element section declares two records, a quadrilateral and a type-15 point
element, parses successfully with one cell and no boundary objects — the
point element consumes a declared slot without producing any entity, so
cells plus boundary sub-entities is 1 while the declared count is 2. -/
theorem msh_declared_count_counterexample :
    phase1EntityCount (read_msh_phase1 2 2 mshPointFile) = some 1 ∧
    phase1Declared (read_msh_phase1 2 2 mshPointFile) = some 2 ∧
    (1 : Nat) ≠ 2 :=
  ⟨rfl, rfl, by decide⟩

/-- Witness: the amended count invariant evaluated on concrete minimal
VTK, UCD and version-1 MSH files. -/
theorem entity_count_matches_declared_witness :
    (vtkQuadRes.cells.length + vtkQuadRes.bquads.length +
        vtkQuadRes.blines.length = vtkQuadRes.declared) ∧
    (ucdQuadRes.cells.length + ucdQuadRes.blines.length +
        ucdQuadRes.bquads.length = ucdQuadRes.declaredCells) ∧
    (mshQuadRes.st.cells.length + mshQuadRes.st.blines.length +
          mshQuadRes.st.bquads.length + mshQuadRes.st.npoints =
        mshQuadRes.globalCell ∧
      (mshQuadRes.fmt < 40 → mshQuadRes.globalCell = mshQuadRes.declared)) :=
  ⟨entity_count_matches_declared.1 2 2 vtkQuadHeader vtkQuadFile vtkQuadRes rfl,
   entity_count_matches_declared.2.1 2 2 false ucdQuadFile ucdQuadRes rfl,
   entity_count_matches_declared.2.2 2 2 mshQuadFile mshQuadRes rfl⟩

/-- C9: a Gmsh MSH parse that yields no top-dimension cells — for example
an element section holding only boundary or point records — makes
`read_msh` fail with the no-cell-information error and leaves the sink
untouched. -/
theorem msh_no_cells_rejected (dim spacedim : Nat) (s : S) (r : MshPhase1)
    (sink : Sink) (h : read_msh_phase1 dim spacedim s = Except.ok r)
    (hc : r.st.cells = []) :
    read_msh dim spacedim s sink =
      (Except.error GErr.gmshNoCellInformation, sink) := by
  rw [read_msh, h]
  dsimp only
  rw [hc]
  rfl

/-- Witness: a 2d MSH file holding a single boundary-line element parses
but is rejected for carrying no cell. -/
theorem msh_no_cells_rejected_witness :
    read_msh 2 2 mshLineOnlyFile [] =
      (Except.error GErr.gmshNoCellInformation, []) :=
  msh_no_cells_rejected 2 2 mshLineOnlyFile mshLineOnlyRes [] rfl rfl

/-- C1: the sink effect of failed reads, amended.  A failed VTK or UCD
read leaves the sink untouched, and so does a failed MSH read in
dimensions other than one; a failed 1d MSH read either leaves the sink
untouched (parse errors) or has already issued its single construct call
when the post-construct boundary-id assignment fails, extending the sink
by exactly one triangulation. -/
theorem failed_read_leaves_sink_untouched :
    (∀ (dim spacedim : Nat) (header : List String) (s : S) (sink : Sink)
        (e : GErr),
        (read_vtk dim spacedim header s sink).1 = Except.error e →
        (read_vtk dim spacedim header s sink).2 = sink) ∧
    (∀ (dim spacedim : Nat) (flag : Bool) (s : S) (sink : Sink) (e : GErr),
        (read_ucd dim spacedim flag s sink).1 = Except.error e →
        (read_ucd dim spacedim flag s sink).2 = sink) ∧
    (∀ (dim spacedim : Nat) (s : S) (sink : Sink) (e : GErr), dim ≠ 1 →
        (read_msh dim spacedim s sink).1 = Except.error e →
        (read_msh dim spacedim s sink).2 = sink) ∧
    (∀ (dim spacedim : Nat) (s : S) (sink : Sink) (e : GErr),
        (read_msh dim spacedim s sink).1 = Except.error e →
        (read_msh dim spacedim s sink).2 = sink ∨
          ∃ t, (read_msh dim spacedim s sink).2 = sink ++ [t]) := by
  refine ⟨?_, ?_, ?_, ?_⟩
  · intro dim spacedim header s sink e h
    cases hcore : read_vtk_core dim spacedim header s with
    | error e2 => rw [read_vtk, hcore]
    | ok r =>
      rw [read_vtk, hcore] at h
      dsimp only at h
      cases h
  · intro dim spacedim flag s sink e h
    cases hcore : read_ucd_core dim spacedim flag s with
    | error e2 => rw [read_ucd, hcore]
    | ok r =>
      rw [read_ucd, hcore] at h
      dsimp only at h
      cases h
  · intro dim spacedim s sink e hdim h
    cases hp : read_msh_phase1 dim spacedim s with
    | error e2 => rw [read_msh, hp]
    | ok r =>
      rw [read_msh, hp] at h ⊢
      dsimp only at h ⊢
      by_cases hc : r.st.cells.isEmpty = true
      · rw [if_pos hc]
      · rw [if_neg hc, if_neg hdim] at h
        dsimp only at h
        cases h
  · intro dim spacedim s sink e h
    cases hp : read_msh_phase1 dim spacedim s with
    | error e2 =>
      left
      rw [read_msh, hp]
    | ok r =>
      rw [read_msh, hp] at h ⊢
      dsimp only at h ⊢
      by_cases hc : r.st.cells.isEmpty = true
      · left
        rw [if_pos hc]
      · rw [if_neg hc] at h ⊢
        by_cases hd : dim = 1
        · rw [if_pos hd] at h ⊢
          split at h
          · rename_i oe t2 heq
            right
            exact ⟨t2, rfl⟩
          · rename_i t2 heq
            dsimp only at h
            cases h
        · rw [if_neg hd] at h
          dsimp only at h
          cases h

/-- C1 counterexample to the literal claim: a 1d MSH file whose type-15
point element prescribes a boundary id on the interior vertex shared by
its two line cells.  The parse succeeds, the construct call is issued,
and only then does `assign_1d_boundary_ids` reject the non-boundary
vertex — the read fails, yet the sink has received one triangulation. -/
theorem msh_1d_failed_read_constructs_counterexample :
    (read_msh 1 1 msh1dBadFile []).1 =
      Except.error (GErr.msg "You are trying to prescribe boundary ids on the face of a 1d cell, but this face is not actually at the boundary of the mesh. This is not allowed.") ∧
    (read_msh 1 1 msh1dBadFile []).2 ≠ [] :=
  ⟨rfl, by decide⟩

/-- Witness: the amended sink contract evaluated on concrete failing
reads (empty or bad streams). -/
theorem failed_read_leaves_sink_untouched_witness :
    (read_vtk 2 2 [] { toks := [], bad := true } []).2 = [] ∧
    (read_ucd 2 2 false { toks := [], bad := true } []).2 = [] ∧
    (read_msh 2 2 { toks := [], bad := true } []).2 = [] ∧
    ((read_msh 1 1 { toks := [], bad := true } []).2 = [] ∨
      ∃ t, (read_msh 1 1 { toks := [], bad := true } []).2 = [] ++ [t]) :=
  ⟨failed_read_leaves_sink_untouched.1 2 2 [] { toks := [], bad := true } []
      (GErr.msg "While reading VTK file, failed to find a header line") rfl,
   failed_read_leaves_sink_untouched.2.1 2 2 false { toks := [], bad := true }
      [] GErr.ioFail rfl,
   failed_read_leaves_sink_untouched.2.2.1 2 2 { toks := [], bad := true } []
      GErr.ioFail (by decide) rfl,
   failed_read_leaves_sink_untouched.2.2.2 1 1 { toks := [], bad := true } []
      GErr.ioFail rfl⟩

theorem keepByFlags_sublist {V : Type} :
    ∀ (vs : List V) (fl : List (Bool × Nat)), (keepByFlags vs fl).Sublist vs := by
  intro vs
  induction vs with
  | nil => intro fl; cases fl <;> exact List.Sublist.refl []
  | cons v vs ih =>
    intro fl
    cases fl with
    | nil => exact List.nil_sublist _
    | cons f fs =>
      obtain ⟨b, k⟩ := f
      rw [keepByFlags]
      split
      · exact List.Sublist.cons₂ _ (ih fs)
      · exact List.Sublist.cons _ (ih fs)

theorem getD_mem_or_default {A : Type} :
    ∀ (l : List A) (n : Nat) (d : A), l.getD n d ∈ l ∨ l.getD n d = d := by
  intro l
  induction l with
  | nil => intro n d; right; cases n <;> rfl
  | cons a l ih =>
    intro n d
    cases n with
    | zero => left; exact List.mem_cons_self a l
    | succ n =>
      rcases ih n d with hm | he
      · left; exact List.mem_cons_of_mem a hm
      · right; exact he

theorem mergeAssign_rep_pos {V : Type} (close : V → V → Bool)
    (particip : Nat → Bool) :
    ∀ (vs : List V) (pool : List (Nat × V)) (i : Nat), 1 ≤ i →
      (∀ jq ∈ pool, 1 ≤ jq.1) →
      ∀ e ∈ mergeAssign close particip vs pool i, 1 ≤ e.2 := by
  intro vs
  induction vs with
  | nil =>
    intro pool i hi hp e he
    rw [mergeAssign] at he
    cases he
  | cons p rest ih =>
    intro pool i hi hp e he
    rw [mergeAssign] at he
    split at he
    · split at he
      · rename_i jq hfind
        rcases List.mem_cons.mp he with rfl | hmem
        · exact hp jq (List.mem_of_find?_eq_some hfind)
        · exact ih pool (i + 1) (by omega) hp e hmem
      · rcases List.mem_cons.mp he with rfl | hmem
        · dsimp only
          omega
        · refine ih (pool ++ [(i, p)]) (i + 1) (by omega) ?_ e hmem
          intro jq hjq
          rcases List.mem_append.mp hjq with h1 | h2
          · exact hp jq h1
          · rw [List.mem_singleton.mp h2]
            dsimp only
            omega
    · rcases List.mem_cons.mp he with rfl | hmem
      · dsimp only
        omega
      · exact ih pool (i + 1) (by omega) hp e hmem

theorem contains_zero_false_of_pos (l : List Nat) (h : ∀ v ∈ l, 1 ≤ v) :
    l.contains 0 = false := by
  have h0 : (0 : Nat) ∉ l := fun hm => by have := h 0 hm; omega
  simpa using h0

theorem refs_any_zero_false (refs : List (List Nat))
    (h : ∀ c ∈ refs, ∀ v ∈ c, 1 ≤ v) :
    refs.any (fun c => c.contains 0) = false := by
  simp only [List.any_eq_false]
  intro c hc hx
  rw [contains_zero_false_of_pos c (h c hc)] at hx
  cases hx

theorem du_phantom_sublist {V : Type} (refs : List (List Nat))
    (href : ∀ c ∈ refs, ∀ v ∈ c, 1 ≤ v) (v0 : V) (vs : List V) :
    (delete_unused_vertices (v0 :: vs) refs).1.Sublist vs := by
  show (keepByFlags (v0 :: vs) (usedFlags refs 0 (v0 :: vs).length)).Sublist vs
  rw [List.length_cons, usedFlags, refs_any_zero_false refs href]
  exact keepByFlags_sublist vs _

theorem renum_zero_cons_pos (ks : List Nat) (w : Nat) (hw : 1 ≤ w) :
    1 ≤ renum (0 :: ks) w := by
  rw [renum, posIn, if_neg (by omega)]
  cases hpi : posIn ks w with
  | none => simp only [hpi, Option.map_none']; exact hw
  | some p => simp only [hpi, Option.map_some']; omega

theorem dd_phantom_sublist {V : Type} (close : V → V → Bool)
    (considered : List Nat) (hne : considered.isEmpty = false)
    (h0 : (0 : Nat) ∉ considered)
    (refs : List (List Nat)) (href : ∀ c ∈ refs, ∀ v ∈ c, 1 ≤ v)
    (v0 : V) (vs : List V) :
    (delete_duplicated_vertices close considered (v0 :: vs) refs).1.Sublist
      vs := by
  have hpart0 : ddParticip considered 0 = false := by
    simp only [ddParticip, hne, Bool.false_or]
    simpa using h0
  have hassign : ddAssign close considered (v0 :: vs) =
      (true, 0) :: mergeAssign close (ddParticip considered) vs [] 1 := by
    rw [ddAssign, mergeAssign, hpart0]
    rfl
  have hArep : ∀ e ∈ mergeAssign close (ddParticip considered) vs [] 1,
      1 ≤ e.2 :=
    mergeAssign_rep_pos close (ddParticip considered) vs [] 1 (by omega)
      (by intro jq hjq; cases hjq)
  have hmv : ddMergedVerts close considered (v0 :: vs) =
      v0 :: keepByFlags vs (mergeAssign close (ddParticip considered) vs [] 1) := by
    rw [ddMergedVerts, hassign]
    rfl
  have hmr : ∀ c ∈ ddMergedRefs close considered (v0 :: vs) refs,
      ∀ v ∈ c, 1 ≤ v := by
    intro c hc v hv
    rw [ddMergedRefs] at hc
    obtain ⟨c0, hc0, rfl⟩ := List.mem_map.mp hc
    obtain ⟨w, hw, rfl⟩ := List.mem_map.mp hv
    have hw1 : 1 ≤ w := href c0 hc0 w hw
    rw [hassign]
    have hrep : 1 ≤ repOf
        ((true, 0) :: mergeAssign close (ddParticip considered) vs [] 1) w := by
      obtain ⟨k, rfl⟩ : ∃ k, w = k + 1 := ⟨w - 1, by omega⟩
      rw [repOf, List.getD_cons_succ]
      rcases getD_mem_or_default
          (mergeAssign close (ddParticip considered) vs [] 1) k
          (true, k + 1) with hm | he
      · exact hArep _ hm
      · rw [he]
        exact hw1
    have hpt : posTrue
        ((true, 0) :: mergeAssign close (ddParticip considered) vs [] 1) 0 =
        0 :: posTrue (mergeAssign close (ddParticip considered) vs [] 1) 1 := by
      rw [posTrue]
      rfl
    rw [hpt]
    exact renum_zero_cons_pos _ _ hrep
  show (delete_unused_vertices (ddMergedVerts close considered (v0 :: vs))
      (ddMergedRefs close considered (v0 :: vs) refs)).1.Sublist vs
  rw [hmv]
  exact (du_phantom_sublist _ hmr v0 _).trans (keepByFlags_sublist vs _)

theorem tec_structured_cells_pos (iDim jDim : Nat) :
    ∀ c ∈ tec_structured_cells iDim jDim, ∀ v ∈ c, 1 ≤ v := by
  intro c hc v hv
  rw [tec_structured_cells] at hc
  obtain ⟨j, hj, hcm⟩ := List.mem_flatMap.mp hc
  obtain ⟨i, hi, rfl⟩ := List.mem_map.mp hcm
  rw [List.mem_range'_1] at hi
  simp only [List.mem_cons, List.not_mem_nil, or_false] at hv
  rcases hv with rfl | rfl | rfl | rfl <;> omega

theorem tec_boundary_vertices_props (iDim jDim : Nat) (h1 : 1 ≤ iDim) :
    (tec_boundary_vertices iDim jDim).isEmpty = false ∧
    (0 : Nat) ∉ tec_boundary_vertices iDim jDim := by
  have hpos : ∀ v ∈ tec_boundary_vertices iDim jDim, 1 ≤ v := by
    intro v hv
    rw [tec_boundary_vertices] at hv
    rcases List.mem_append.mp hv with hv | hv
    · obtain ⟨i, hi, hvm⟩ := List.mem_flatMap.mp hv
      rw [List.mem_range'_1] at hi
      simp only [List.mem_cons, List.not_mem_nil, or_false] at hvm
      rcases hvm with rfl | rfl <;> omega
    · obtain ⟨j, hj, hvm⟩ := List.mem_flatMap.mp hv
      simp only [List.mem_cons, List.not_mem_nil, or_false] at hvm
      rcases hvm with rfl | rfl <;> omega
  have hmem : (1 : Nat) ∈ tec_boundary_vertices iDim jDim := by
    rw [tec_boundary_vertices]
    refine List.mem_append.mpr (Or.inl ?_)
    refine List.mem_flatMap.mpr ⟨1, ?_, ?_⟩
    · rw [List.mem_range'_1]
      omega
    · exact List.mem_cons_self _ _
  refine ⟨?_, fun h0 => by have := hpos 0 h0; omega⟩
  cases he : (tec_boundary_vertices iDim jDim).isEmpty
  · rfl
  · rw [List.isEmpty_iff] at he
    rw [he] at hmem
    cases hmem

/-- C10: the phantom-vertex invariant, amended.  The 2d tecplot reader
stores file vertices 1-based behind an artificial origin vertex in slot 0;
for every successful parse whose connectivity references only 1-based
vertex numbers (which the structured branch generates by construction,
and which requires at least one grid column so that the boundary-vertex
list handed to duplicate removal is non-empty and 0-free), the vertex
array handed to the sink is drawn entirely from the file vertices — the
artificial vertex is removed by the cleanup. -/
theorem tecplot_phantom_vertex_removed :
    ∀ (close : List ℚ → List ℚ → Bool) (h : TecHeader) (s : S)
      (r : TecResult),
      read_tecplot2_core close h s = Except.ok r →
      (∀ c ∈ r.rawCells, ∀ v ∈ c, 1 ≤ v) →
      (h.structured = true → 1 ≤ h.iDim) →
      r.verts.Sublist r.rawVerts.tail := by
  intro close h s r hok hrefs hdim
  simp only [read_tecplot2_core] at hok
  split at hok
  · rename_i hst
    split at hok
    · cases hok
    · cases hok
      obtain ⟨hne, h0⟩ := tec_boundary_vertices_props h.iDim h.jDim (hdim hst)
      exact dd_phantom_sublist close _ hne h0 _
        (tec_structured_cells_pos h.iDim h.jDim) _ _
  · split at hok
    · cases hok
    · rename_i rawCells1 s2 hcells
      split at hok
      · cases hok
      · cases hok
        dsimp only at hrefs ⊢
        exact du_phantom_sublist _ hrefs _ _

/-- C10 counterexample to the literal claim: an unstructured tecplot file
whose connectivity names vertex number 0 — the artificial origin slot —
parses successfully, every vertex is then in use, and the artificial
vertex survives the cleanup into the vertex array handed to the sink. -/
theorem tecplot_phantom_vertex_counterexample :
    tecCERes.rawCells = [[0, 1, 2, 3]] ∧
    tecCERes.verts.length = 4 ∧ tecCERes.rawVerts.tail.length = 3 ∧
    ¬ tecCERes.verts.Sublist tecCERes.rawVerts.tail := by
  refine ⟨rfl, rfl, rfl, fun hs => ?_⟩
  have hl := hs.length_le
  have h1 : tecCERes.verts.length = 4 := rfl
  have h2 : tecCERes.rawVerts.tail.length = 3 := rfl
  omega

/-- Witness: the amended phantom-vertex invariant evaluated on a concrete
unstructured tecplot file with 1-based connectivity. -/
theorem tecplot_phantom_vertex_removed_witness :
    tecOkRes.verts.Sublist tecOkRes.rawVerts.tail :=
  tecplot_phantom_vertex_removed (fun _ _ => false) tecOkHeader tecOkFile
    tecOkRes rfl (by decide) (by decide)

end GridInSpec
